import Mathlib

/-!
Shallow embedding of the reading-position / pagination synchronization
engine of `src/components/Reader.tsx` (the component starting at line
1853, which the specification describes).

Conventions of the embedding:
* JavaScript `number | null | undefined` position indices become
  `Option Int` (a `NaN` result of `locationFromCfi` is folded into
  `none`, matching the `typeof n === 'number' && !Number.isNaN(n)`
  guards in the source).
* React `useRef` / `useState` cells become fields of `ReaderState`;
  every handler is a pure function from state to state.
* `book.locations.locationFromCfi` may throw (CFI parsing); it is
  modelled as `String → Except Unit (Option Int)`.  A thrown exception
  inside the `relocated` handler is modelled by `Except ReaderState`:
  the `error` payload carries the state as mutated so far, because ref
  writes performed before the throw survive it.
* `requestAnimationFrame` scheduling is split into `submitPage`
  (the body of `updatePageNonBlocking`) and `rafFlush` (the scheduled
  callback); the host runs `rafFlush` at the next paint opportunity.
-/

/-- One entry of `chapterLocationsRef`:
`{ href, label, startLocationIndex, endLocationIndex }`. -/
structure ChapterRange where
  href : String
  label : String
  startLocationIndex : Int
  endLocationIndex : Int
deriving Repr, DecidableEq

/-- A node of the table of contents (`nav.toc`); `subitems` may nest. -/
inductive TocItem : Type where
  | mk (href : String) (label : String) (subitems : List TocItem) : TocItem
deriving Repr

def TocItem.href : TocItem → String
  | .mk h _ _ => h

def TocItem.label : TocItem → String
  | .mk _ l _ => l

def TocItem.subitems : TocItem → List TocItem
  | .mk _ _ s => s

/-- The black-box book/renderer facts a `relocated` event is resolved
against: `book.locations.length()` and `book.locations.locationFromCfi`
(which may throw on a malformed CFI), plus the measured container width
`manager.container.clientWidth` when available. -/
structure BookEnv where
  locationsTotal : Nat
  locationFromCfi : String → Except Unit (Option Int)
  measuredWidth : Option Int

/-- Payload of a `relocated` event (`loc`): `loc.start.cfi`,
`loc.end.cfi`, `loc.start.location`, `loc.end.location` and
`loc.start.displayed.{page,total}` (the latter kept only when both are
numbers, as in the source guard). -/
structure RelocatedEvent where
  startCfi : String
  endCfi : Option String
  startLocation : Option Int
  endLocation : Option Int
  displayed : Option (Int × Int)

/-- The mutable state of the Reader component: every `useState` cell and
`useRef` cell that the claims touch, in source order.  `offset` is the
`translateX` magnitude currently applied to the rendered document root,
`viewAvailable` stands for the chain of DOM guards
(`manager`, `views._views[0]`, `contents.document`, `body`) and
`renditionAvailable` for `renditionRef.current` being non-null. -/
structure ReaderState where
  currentLocation : String
  currentPage : Int
  pagesLeftInChapter : Option Int
  currentChapterName : String
  pendingPage : Option Int
  pageUpdateScheduled : Bool
  lastNavigationTime : Int
  currentLocationIndex : Int
  isNavigating : Bool
  lastRequestedLocationIndex : Option Int
  currentStartLocation : Option Int
  currentEndLocation : Option Int
  lastRelocatedStart : Option Int
  lastRelocatedEnd : Option Int
  currentDisplayedPage : Option Int
  currentDisplayedTotal : Option Int
  sectionPage : Int
  sectionTotalPages : Int
  containerWidth : Int
  sectionStartGlobalPage : Int
  offset : Int
  viewAvailable : Bool
  renditionAvailable : Bool
  stuckFlagged : Bool
deriving Repr, DecidableEq

/-- Body of `updatePageNonBlocking` (Reader.tsx:1881-1894): store the
new value in `pendingPageRef` and, if no flush is scheduled, schedule
one. -/
def submitPage (s : ReaderState) (newPage : Int) : ReaderState :=
  let s := { s with pendingPage := some newPage }
  if s.pageUpdateScheduled then s else { s with pageUpdateScheduled := true }

/-- The scheduled `requestAnimationFrame` callback
(Reader.tsx:1886-1892): apply the pending page if any, then clear the
scheduled flag. -/
def rafFlush (s : ReaderState) : ReaderState :=
  let s :=
    match s.pendingPage with
    | some p => { s with currentPage := p, pendingPage := none }
    | none => s
  { s with pageUpdateScheduled := false }

/-- Index resolution of a `relocated` event (Reader.tsx:2346-2384):
derive indices from the CFIs (may throw), prefer the renderer-supplied
`loc.start.location` / `loc.end.location`, fall back to the derived
values, and finally set a still-missing end to the resolved start.
An empty CFI string is falsy in the source (`if (startCfi)`), so it is
skipped rather than resolved. -/
def resolveIndices (env : BookEnv) (e : RelocatedEvent) :
    Except Unit (Option Int × Option Int) :=
  match (if e.startCfi = "" then (.ok none : Except Unit (Option Int))
      else env.locationFromCfi e.startCfi) with
  | .error u => .error u
  | .ok derivedStartFromCfi =>
    match (match e.endCfi with
        | none => (.ok none : Except Unit (Option Int))
        | some c => if c = "" then .ok none else env.locationFromCfi c) with
    | .error u => .error u
    | .ok derivedEndFromCfi =>
      let startIdx :=
        match e.startLocation with
        | some n => some n
        | none => derivedStartFromCfi
      let endIdx0 :=
        match e.endLocation with
        | some n => some n
        | none => derivedEndFromCfi
      let endIdx :=
        match endIdx0 with
        | none => startIdx
        | some n => some n
      .ok (startIdx, endIdx)

/-- The `RELOCATED_STUCK_DETECTED` condition (Reader.tsx:2405-2414):
both resolved indices present, both previous indices present, previous
range identical to the new one, and the last explicitly requested
location index non-null and strictly greater than the new range's
end. -/
def stuckCheck (s : ReaderState) (stIdx enIdx : Option Int) : Bool :=
  match stIdx, enIdx, s.lastRelocatedStart, s.lastRelocatedEnd,
      s.lastRequestedLocationIndex with
  | some st, some en, some ps, some pe, some req =>
      ps == st && pe == en && decide (en < req)
  | _, _, _, _, _ => false

/-- Section sync on a `relocated` event carrying `displayed` data
(Reader.tsx:2429-2472): record `displayed.page/total`, reset the
transform pagination to page 1 of a section of `displayed.total` pages,
set `sectionStartGlobalPage` from a valid start index, remeasure the
container width, and reset the visual transform (the reset sits in an
inner try/catch, so a missing view only skips the reset). -/
def syncDisplayed (env : BookEnv) (s : ReaderState) (stIdx : Option Int)
    (disp : Option (Int × Int)) : ReaderState :=
  match disp with
  | none => s
  | some (p, t) =>
    let s := { s with currentDisplayedPage := some p, currentDisplayedTotal := some t,
                      sectionTotalPages := t, sectionPage := 1 }
    let s :=
      match stIdx with
      | some st => if 0 ≤ st then { s with sectionStartGlobalPage := st + 1 } else s
      | none => s
    let s :=
      match env.measuredWidth with
      | some w => { s with containerWidth := w }
      | none => s
    if s.viewAvailable then { s with offset := 0 } else s

/-- Viewport ref sync (Reader.tsx:2478-2484): valid (non-negative)
resolved indices overwrite `currentStartLocationRef`,
`currentLocationIndexRef` and `currentEndLocationRef`. -/
def updateViewportRefs (s : ReaderState) (stIdx enIdx : Option Int) : ReaderState :=
  let s :=
    match stIdx with
    | some st =>
        if 0 ≤ st then
          { s with currentStartLocation := some st, currentLocationIndex := st }
        else s
    | none => s
  match enIdx with
  | some en => if 0 ≤ en then { s with currentEndLocation := some en } else s
  | none => s

/-- Page-number submission (Reader.tsx:2498-2504): a valid start index
submits `max 1 (start + 1)` through the coalescing channel. -/
def submitPageIfValid (s : ReaderState) (stIdx : Option Int) : ReaderState :=
  match stIdx with
  | some st => if 0 ≤ st then submitPage s (max 1 (st + 1)) else s
  | none => s

/-- First chapter range containing `idx`, scanning in list order
(Reader.tsx:2511-2517). -/
def firstContaining (chapters : List ChapterRange) (idx : Int) : Option ChapterRange :=
  match chapters with
  | [] => none
  | c :: rest =>
      if c.startLocationIndex ≤ idx ∧ idx ≤ c.endLocationIndex then some c
      else firstContaining rest idx

/-- Chapter-progress update (Reader.tsx:2506-2534): with a non-empty
chapter table and a resolved start index, publish the first containing
range's `max 0 (endLocationIndex − idx)` and label, or `null` and the
empty label when no range contains the index. -/
def chapterUpdate (chapters : List ChapterRange) (s : ReaderState)
    (stIdx : Option Int) : ReaderState :=
  match stIdx with
  | none => s
  | some idx =>
    if chapters.isEmpty then s
    else
      match firstContaining chapters idx with
      | some c =>
          { s with pagesLeftInChapter := some (max 0 (c.endLocationIndex - idx)),
                   currentChapterName := c.label }
      | none => { s with pagesLeftInChapter := none, currentChapterName := "" }

/-- The `relocated` handler body inside its try block
(Reader.tsx:2320-2537).  An `error` result carries the state as
mutated up to the throw point (ref writes before a throw survive it). -/
def relocatedBody (env : BookEnv) (chapters : List ChapterRange)
    (s : ReaderState) (e : RelocatedEvent) : Except ReaderState ReaderState :=
  let s := { s with stuckFlagged := false, currentLocation := e.startCfi }
  if env.locationsTotal = 0 then .ok s
  else
    match resolveIndices env e with
    | .error _ => .error s
    | .ok (stIdx, enIdx) =>
      let s := { s with stuckFlagged := stuckCheck s stIdx enIdx }
      let s := { s with lastRelocatedStart := stIdx, lastRelocatedEnd := enIdx }
      let s := syncDisplayed env s stIdx e.displayed
      let s := updateViewportRefs s stIdx enIdx
      let s := submitPageIfValid s stIdx
      .ok (chapterUpdate chapters s stIdx)

/-- The full `relocated` handler: the catch block (Reader.tsx:2538-2545)
logs and swallows the exception, so the handler always returns the
(possibly partially updated) state. -/
def relocatedStep (env : BookEnv) (chapters : List ChapterRange)
    (s : ReaderState) (e : RelocatedEvent) : ReaderState :=
  match relocatedBody env chapters s e with
  | .ok s' => s'
  | .error sPartial => sPartial

/-- Flattening of the nested table of contents (Reader.tsx:2735-2744):
each item is pushed, then its subitems are flattened in place,
preserving document order. -/
def flattenToc : List TocItem → List TocItem
  | [] => []
  | .mk h l subs :: rest => .mk h l subs :: (flattenToc subs ++ flattenToc rest)

/-- Environment of the chapter index build: `total` is
`book.locations.length()`, `spineGet` is `spine.get(href)?.cfiBase`
(null when the href has no spine item), `locationFromCfi` as in
`BookEnv` (may throw). -/
structure ChapterBuildEnv where
  total : Nat
  spineGet : String → Option String
  locationFromCfi : String → Except Unit (Option Int)

/-- End-index computation for one TOC entry (Reader.tsx:2760-2771):
default `total − 1`; if the next flattened entry exists, has a spine
item, and its CFI resolves to an index strictly greater than the
current start, use that index minus one. -/
def chapterEndLoc (env : ChapterBuildEnv) (startLoc : Int)
    (nextItem : Option TocItem) : Except Unit Int :=
  match nextItem with
  | none => .ok ((env.total : Int) - 1)
  | some nxt =>
    match env.spineGet nxt.href with
    | none => .ok ((env.total : Int) - 1)
    | some nextCfi =>
      match env.locationFromCfi nextCfi with
      | .error u => .error u
      | .ok (some nextLoc) =>
          if startLoc < nextLoc then .ok (nextLoc - 1)
          else .ok ((env.total : Int) - 1)
      | .ok none => .ok ((env.total : Int) - 1)

/-- The chapter index build loop (Reader.tsx:2750-2780) over the
flattened TOC.  Entries without a spine item are skipped silently; a
`locationFromCfi` result is defaulted to 0 via `|| 0`; any thrown
resolution error propagates out of the loop (the try/catch sits
outside the whole loop, Reader.tsx:2729/2785). -/
def buildChapterLocs (env : ChapterBuildEnv) :
    List TocItem → Except Unit (List ChapterRange)
  | [] => .ok []
  | item :: rest =>
      match env.spineGet item.href with
      | none => buildChapterLocs env rest
      | some startCfi =>
        match env.locationFromCfi startCfi with
        | .error u => .error u
        | .ok startLocOpt =>
          let startLoc := startLocOpt.getD 0
          match chapterEndLoc env startLoc rest.head? with
          | .error u => .error u
          | .ok endLoc =>
            match buildChapterLocs env rest with
            | .error u => .error u
            | .ok restRanges =>
              .ok ({ href := item.href, label := item.label,
                     startLocationIndex := startLoc,
                     endLocationIndex := endLoc } :: restRanges)

/-- Publication of the build result: on success the ref
`chapterLocationsRef` is assigned (Reader.tsx:2782); on a caught error
the assignment is never reached and the previous table (initially
empty) is retained. -/
def publishChapters (prev : List ChapterRange)
    (result : Except Unit (List ChapterRange)) : List ChapterRange :=
  match result with
  | .ok l => l
  | .error _ => prev

/-- Modelled from the spec, for comparison with `buildChapterLocs`:
"a resolution error for any entry is logged and that entry is skipped"
— the per-entry error-handling variant the spec describes, in which a
throwing entry is dropped and every other entry's range is still
built. -/
def specPerEntryBuild (env : ChapterBuildEnv) : List TocItem → List ChapterRange
  | [] => []
  | item :: rest =>
      match env.spineGet item.href with
      | none => specPerEntryBuild env rest
      | some startCfi =>
        match env.locationFromCfi startCfi with
        | .error _ => specPerEntryBuild env rest
        | .ok startLocOpt =>
          let startLoc := startLocOpt.getD 0
          match chapterEndLoc env startLoc rest.head? with
          | .error _ => specPerEntryBuild env rest
          | .ok endLoc =>
              { href := item.href, label := item.label,
                startLocationIndex := startLoc,
                endLocationIndex := endLoc } :: specPerEntryBuild env rest

/-- Modelled from the spec, for comparison with `resolveIndices`:
"if still absent, reuse the prior Viewport Range's end as a last
resort" — an index still unresolved after the renderer-supplied and
CFI-derived steps is replaced by the prior viewport range's end. -/
def specResolveIndices (priorEnd : Option Int) (env : BookEnv)
    (e : RelocatedEvent) : Except Unit (Option Int × Option Int) := do
  let derivedStartFromCfi ←
    if e.startCfi = "" then pure none else env.locationFromCfi e.startCfi
  let derivedEndFromCfi ←
    match e.endCfi with
    | none => pure (none : Option Int)
    | some c => if c = "" then pure none else env.locationFromCfi c
  let startIdx0 :=
    match e.startLocation with
    | some n => some n
    | none => derivedStartFromCfi
  let endIdx0 :=
    match e.endLocation with
    | some n => some n
    | none => derivedEndFromCfi
  let startIdx :=
    match startIdx0 with
    | none => priorEnd
    | some n => some n
  let endIdx :=
    match endIdx0 with
    | none => priorEnd
    | some n => some n
  pure (startIdx, endIdx)

/-- Width of one transform page (Reader.tsx:1974):
`containerWidthRef.current || ... || 440`; the measured container
width when non-zero, the 440 default otherwise. -/
def pageWidth (s : ReaderState) : Int :=
  if s.containerWidth = 0 then 440 else s.containerWidth

/-- `applyPageTransform` (Reader.tsx:1955-1989): with a live rendition
and view, set `translateX(-(pageNum − 1) × width)` on the document root
and record `sectionPageRef := pageNum`; any missing DOM link returns
early without touching the state. -/
def applyPageTransform (s : ReaderState) (pageNum : Int) : ReaderState :=
  if s.renditionAvailable = false then s
  else if s.viewAvailable = false then s
  else { s with offset := (pageNum - 1) * pageWidth s, sectionPage := pageNum }

/-- Result of a `goToNextPage` call: advanced within the section, or
delegated to `rendition.next()`, or dropped for lack of a rendition. -/
inductive AdvanceAction where
  | withinSection
  | delegatedNextSection
  | noRendition
deriving Repr, DecidableEq

/-- `goToNextPage` (Reader.tsx:1992-2026): below the section's last
page, apply the transform for `sectionPage + 1` and submit the global
page `sectionStartGlobalPage + (newPage − 1)`; at the last page,
delegate to `rendition.next()`. -/
def goToNextPage (s : ReaderState) : ReaderState × AdvanceAction :=
  if s.renditionAvailable = false then (s, .noRendition)
  else if s.sectionPage < s.sectionTotalPages then
    let newPage := s.sectionPage + 1
    let s1 := applyPageTransform s newPage
    let newGlobalPage := s1.sectionStartGlobalPage + (newPage - 1)
    (submitPage s1 newGlobalPage, .withinSection)
  else (s, .delegatedNextSection)

/-- Completion callback of the delegated `rendition.next()`
(Reader.tsx:2018-2024): reset `sectionPageRef` to 1 and apply the
page-1 transform. -/
def onNextSectionComplete (s : ReaderState) : ReaderState :=
  applyPageTransform { s with sectionPage := 1 } 1

/-- A raw tap event as seen by the click handler
(Reader.tsx:2567-2701). -/
structure TapEvent where
  time : Int
  onLink : Bool
  chatOpen : Bool
  hasSelection : Bool
  clientX : Int
  viewportWidth : Int

/-- Direction of an accepted tap navigation. -/
inductive NavDirection where
  | prev
  | next
deriving Repr, DecidableEq

/-- Outcome of the click handler's decision chain. -/
inductive TapOutcome where
  | linkPassthrough
  | blockedChat
  | blockedSelection
  | blockedDebounce
  | blockedNavigating
  | centerTap
  | accepted (dir : NavDirection)
deriving Repr, DecidableEq

/-- The center-zone test (Reader.tsx:2632): `0.35 ≤ x/w ≤ 0.65`,
written over the integers as `7w ≤ 20x ∧ 20x ≤ 13w`. -/
def isCenterTap (t : TapEvent) : Prop :=
  7 * t.viewportWidth ≤ 20 * t.clientX ∧ 20 * t.clientX ≤ 13 * t.viewportWidth

instance (t : TapEvent) : Decidable (isCenterTap t) := by
  unfold isCenterTap
  infer_instance

/-- The click handler's decision chain (Reader.tsx:2567-2701), in
source order: link passthrough, chat-open block, selection block,
200 ms debounce against `lastNavigationTimeRef`, single-flight block on
`isNavigatingRef`, center-tap no-op; only an accepted tap writes
`lastNavigationTimeRef := now` and `isNavigatingRef := true`. -/
def classifyTap (s : ReaderState) (t : TapEvent) : ReaderState × TapOutcome :=
  if t.onLink then (s, .linkPassthrough)
  else if t.chatOpen then (s, .blockedChat)
  else if t.hasSelection then (s, .blockedSelection)
  else if t.time - s.lastNavigationTime < 200 then (s, .blockedDebounce)
  else if s.isNavigating then (s, .blockedNavigating)
  else if isCenterTap t then (s, .centerTap)
  else
    ({ s with lastNavigationTime := t.time, isNavigating := true },
     .accepted (if 20 * t.clientX < 7 * t.viewportWidth then .prev else .next))

/-- Completion of an accepted navigation (both the `.then` and `.catch`
paths, Reader.tsx:2684/2696): clear the single-flight flag. -/
def navComplete (s : ReaderState) : ReaderState :=
  { s with isNavigating := false }

/-! Stage characterization lemmas: each handler stage equals a record
update of its input state, so projections of untouched fields reduce. -/

theorem submitPage_eq (s : ReaderState) (v : Int) :
    submitPage s v = { s with pendingPage := some v, pageUpdateScheduled := true } := by
  cases s
  unfold submitPage
  dsimp only
  split <;> simp_all

theorem submitPageIfValid_some_eq (s : ReaderState) (st : Int) (h : 0 ≤ st) :
    submitPageIfValid s (some st) = submitPage s (max 1 (st + 1)) := by
  unfold submitPageIfValid
  simp [h]

theorem submitPageIfValid_none_eq (s : ReaderState) :
    submitPageIfValid s none = s := rfl

theorem updateViewportRefs_valid_eq (s : ReaderState) (st en : Int)
    (hst : 0 ≤ st) (hen : 0 ≤ en) :
    updateViewportRefs s (some st) (some en) =
      { s with currentStartLocation := some st, currentLocationIndex := st,
               currentEndLocation := some en } := by
  unfold updateViewportRefs
  simp [hst, hen]

theorem updateViewportRefs_exists (s : ReaderState) (stIdx enIdx : Option Int) :
    ∃ cs ce ci, updateViewportRefs s stIdx enIdx =
      { s with currentStartLocation := cs, currentEndLocation := ce,
               currentLocationIndex := ci } := by
  unfold updateViewportRefs
  rcases stIdx with _ | st <;> rcases enIdx with _ | en <;> dsimp only
  · exact ⟨_, _, _, rfl⟩
  · split
    · exact ⟨_, _, _, rfl⟩
    · exact ⟨_, _, _, rfl⟩
  · split
    · exact ⟨_, _, _, rfl⟩
    · exact ⟨_, _, _, rfl⟩
  · split <;> split
    · exact ⟨_, _, _, rfl⟩
    · exact ⟨_, _, _, rfl⟩
    · exact ⟨_, _, _, rfl⟩
    · exact ⟨_, _, _, rfl⟩

theorem syncDisplayed_exists (env : BookEnv) (s : ReaderState) (stIdx : Option Int)
    (disp : Option (Int × Int)) :
    ∃ dp dt sp stp ssg cw off, syncDisplayed env s stIdx disp =
      { s with currentDisplayedPage := dp, currentDisplayedTotal := dt,
               sectionPage := sp, sectionTotalPages := stp,
               sectionStartGlobalPage := ssg, containerWidth := cw,
               offset := off } := by
  unfold syncDisplayed
  rcases disp with _ | ⟨p, t⟩ <;> dsimp only
  · exact ⟨_, _, _, _, _, _, _, rfl⟩
  · rcases stIdx with _ | st <;> rcases h : env.measuredWidth with _ | w <;>
      dsimp only <;> (try split) <;> (try split) <;> exact ⟨_, _, _, _, _, _, _, rfl⟩

theorem chapterUpdate_exists (ch : List ChapterRange) (s : ReaderState)
    (stIdx : Option Int) :
    ∃ pl cn, chapterUpdate ch s stIdx =
      { s with pagesLeftInChapter := pl, currentChapterName := cn } := by
  unfold chapterUpdate
  rcases stIdx with _ | idx <;> dsimp only
  · exact ⟨_, _, rfl⟩
  · split
    · exact ⟨_, _, rfl⟩
    · split <;> exact ⟨_, _, rfl⟩

theorem chapterUpdate_containing (ch : List ChapterRange) (s : ReaderState)
    (idx : Int) (c : ChapterRange) (h : firstContaining ch idx = some c) :
    chapterUpdate ch s (some idx) =
      { s with pagesLeftInChapter := some (max 0 (c.endLocationIndex - idx)),
               currentChapterName := c.label } := by
  unfold chapterUpdate
  have hne : ch.isEmpty = false := by
    cases ch
    · simp [firstContaining] at h
    · rfl
  simp [hne, h]

theorem chapterUpdate_front_matter (ch : List ChapterRange) (s : ReaderState)
    (idx : Int) (hne : ch ≠ []) (h : firstContaining ch idx = none) :
    chapterUpdate ch s (some idx) =
      { s with pagesLeftInChapter := none, currentChapterName := "" } := by
  unfold chapterUpdate
  have hne' : ch.isEmpty = false := by
    cases ch
    · exact absurd rfl hne
    · rfl
  simp [hne', h]

theorem relocatedStep_ok_eq (env : BookEnv) (ch : List ChapterRange)
    (s : ReaderState) (e : RelocatedEvent) (stIdx enIdx : Option Int)
    (htot : env.locationsTotal ≠ 0)
    (hres : resolveIndices env e = .ok (stIdx, enIdx)) :
    relocatedStep env ch s e =
      chapterUpdate ch
        (submitPageIfValid
          (updateViewportRefs
            (syncDisplayed env
              { s with stuckFlagged := stuckCheck s stIdx enIdx,
                       currentLocation := e.startCfi,
                       lastRelocatedStart := stIdx, lastRelocatedEnd := enIdx }
              stIdx e.displayed)
            stIdx enIdx)
          stIdx)
        stIdx := by
  unfold relocatedStep relocatedBody
  simp only [htot, if_false, hres]
  rfl

theorem relocatedStep_notReady_eq (env : BookEnv) (ch : List ChapterRange)
    (s : ReaderState) (e : RelocatedEvent) (htot : env.locationsTotal = 0) :
    relocatedStep env ch s e =
      { s with stuckFlagged := false, currentLocation := e.startCfi } := by
  unfold relocatedStep relocatedBody
  simp [htot]

theorem relocatedStep_err_eq (env : BookEnv) (ch : List ChapterRange)
    (s : ReaderState) (e : RelocatedEvent) (htot : env.locationsTotal ≠ 0)
    (hres : resolveIndices env e = .error ()) :
    relocatedStep env ch s e =
      { s with stuckFlagged := false, currentLocation := e.startCfi } := by
  unfold relocatedStep relocatedBody
  simp only [htot, if_false, hres]

theorem firstContaining_spec (ch : List ChapterRange) (idx : Int) (c : ChapterRange)
    (h : firstContaining ch idx = some c) :
    c.startLocationIndex ≤ idx ∧ idx ≤ c.endLocationIndex ∧
      ∃ pre post, ch = pre ++ c :: post ∧
        ∀ c' ∈ pre, ¬(c'.startLocationIndex ≤ idx ∧ idx ≤ c'.endLocationIndex) := by
  induction ch with
  | nil => simp [firstContaining] at h
  | cons c0 rest ih =>
      unfold firstContaining at h
      by_cases hc : c0.startLocationIndex ≤ idx ∧ idx ≤ c0.endLocationIndex
      · rw [if_pos hc] at h
        cases h
        exact ⟨hc.1, hc.2, [], rest, rfl, by simp⟩
      · rw [if_neg hc] at h
        obtain ⟨h1, h2, pre, post, hch, hpre⟩ := ih h
        refine ⟨h1, h2, c0 :: pre, post, by rw [hch]; simp, ?_⟩
        intro c' hc'
        rcases List.mem_cons.mp hc' with h' | h'
        · rw [h']; exact hc
        · exact hpre c' h'

theorem chapterUpdate_pagesLeft_cases (ch : List ChapterRange) (s : ReaderState)
    (stIdx : Option Int) :
    (chapterUpdate ch s stIdx).pagesLeftInChapter = s.pagesLeftInChapter ∨
    (chapterUpdate ch s stIdx).pagesLeftInChapter = none ∨
    ∃ k, (chapterUpdate ch s stIdx).pagesLeftInChapter = some (max 0 k) := by
  unfold chapterUpdate
  rcases stIdx with _ | idx <;> dsimp only
  · exact Or.inl rfl
  · split
    · exact Or.inl rfl
    · split
      · exact Or.inr (Or.inr ⟨_, rfl⟩)
      · exact Or.inr (Or.inl rfl)

/-- C7: on a relocation whose resolved start index is contained in some
chapter range, the handler selects the first containing range in list
order and publishes its label and `endIndex − startIndex` pages left
(0 when the start sits on the range's last index); when no range
contains the index and the table is non-empty, it publishes `null`
pages left and an empty label. -/
theorem chapterLookupPublishesFirstContainingRange :
    ∀ (env : BookEnv) (ch : List ChapterRange) (s : ReaderState)
      (e : RelocatedEvent) (stIdx enIdx : Option Int) (st : Int),
      env.locationsTotal ≠ 0 →
      resolveIndices env e = .ok (stIdx, enIdx) →
      stIdx = some st →
      (∀ c, firstContaining ch st = some c →
        (relocatedStep env ch s e).pagesLeftInChapter =
            some (c.endLocationIndex - st) ∧
        (relocatedStep env ch s e).currentChapterName = c.label ∧
        c.startLocationIndex ≤ st ∧ st ≤ c.endLocationIndex ∧
        (∃ pre post, ch = pre ++ c :: post ∧
          ∀ c' ∈ pre,
            ¬(c'.startLocationIndex ≤ st ∧ st ≤ c'.endLocationIndex)) ∧
        (st = c.endLocationIndex →
          (relocatedStep env ch s e).pagesLeftInChapter = some 0)) ∧
      (ch ≠ [] → firstContaining ch st = none →
        (relocatedStep env ch s e).pagesLeftInChapter = none ∧
        (relocatedStep env ch s e).currentChapterName = "") := by
  intro env ch s e stIdx enIdx st htot hres hst
  subst hst
  rw [relocatedStep_ok_eq env ch s e (some st) enIdx htot hres]
  constructor
  · intro c hc
    obtain ⟨hle1, hle2, hfirst⟩ := firstContaining_spec ch st c hc
    rw [chapterUpdate_containing ch _ st c hc]
    have hmax : max 0 (c.endLocationIndex - st) = c.endLocationIndex - st := by omega
    refine ⟨by simp [hmax], by simp, hle1, hle2, hfirst, ?_⟩
    intro hEnd
    simp [hmax, hEnd]
  · intro hne hnone
    rw [chapterUpdate_front_matter ch _ st hne hnone]
    exact ⟨rfl, rfl⟩

/-- Witness for C7, on the spec's chapter-boundary scenario: ranges
Ch1 = 0–49 and Ch2 = 50–99; start index 49 publishes 0 pages left in
"Ch1", start index 50 publishes 49 pages left in "Ch2". -/
theorem chapterLookupPublishesFirstContainingRange_witness :
    (relocatedStep
        { locationsTotal := 100, locationFromCfi := fun _ => .ok none,
          measuredWidth := none }
        [{ href := "c1", label := "Ch1", startLocationIndex := 0,
           endLocationIndex := 49 },
         { href := "c2", label := "Ch2", startLocationIndex := 50,
           endLocationIndex := 99 }]
        { currentLocation := "", currentPage := 1, pagesLeftInChapter := none,
          currentChapterName := "", pendingPage := none,
          pageUpdateScheduled := false, lastNavigationTime := 0,
          currentLocationIndex := 0, isNavigating := false,
          lastRequestedLocationIndex := none, currentStartLocation := none,
          currentEndLocation := none, lastRelocatedStart := none,
          lastRelocatedEnd := none, currentDisplayedPage := none,
          currentDisplayedTotal := none, sectionPage := 1,
          sectionTotalPages := 1, containerWidth := 0,
          sectionStartGlobalPage := 1, offset := 0, viewAvailable := true,
          renditionAvailable := true, stuckFlagged := false }
        { startCfi := "cfiA", endCfi := none, startLocation := some 49,
          endLocation := some 52, displayed := none }).pagesLeftInChapter =
      some 0 ∧
    (relocatedStep
        { locationsTotal := 100, locationFromCfi := fun _ => .ok none,
          measuredWidth := none }
        [{ href := "c1", label := "Ch1", startLocationIndex := 0,
           endLocationIndex := 49 },
         { href := "c2", label := "Ch2", startLocationIndex := 50,
           endLocationIndex := 99 }]
        { currentLocation := "", currentPage := 1, pagesLeftInChapter := none,
          currentChapterName := "", pendingPage := none,
          pageUpdateScheduled := false, lastNavigationTime := 0,
          currentLocationIndex := 0, isNavigating := false,
          lastRequestedLocationIndex := none, currentStartLocation := none,
          currentEndLocation := none, lastRelocatedStart := none,
          lastRelocatedEnd := none, currentDisplayedPage := none,
          currentDisplayedTotal := none, sectionPage := 1,
          sectionTotalPages := 1, containerWidth := 0,
          sectionStartGlobalPage := 1, offset := 0, viewAvailable := true,
          renditionAvailable := true, stuckFlagged := false }
        { startCfi := "cfiB", endCfi := none, startLocation := some 50,
          endLocation := some 52, displayed := none }).currentChapterName =
      "Ch2" := by
  constructor
  · have h :=
      (chapterLookupPublishesFirstContainingRange
        { locationsTotal := 100, locationFromCfi := fun _ => .ok none,
          measuredWidth := none }
        [{ href := "c1", label := "Ch1", startLocationIndex := 0,
           endLocationIndex := 49 },
         { href := "c2", label := "Ch2", startLocationIndex := 50,
           endLocationIndex := 99 }]
        { currentLocation := "", currentPage := 1, pagesLeftInChapter := none,
          currentChapterName := "", pendingPage := none,
          pageUpdateScheduled := false, lastNavigationTime := 0,
          currentLocationIndex := 0, isNavigating := false,
          lastRequestedLocationIndex := none, currentStartLocation := none,
          currentEndLocation := none, lastRelocatedStart := none,
          lastRelocatedEnd := none, currentDisplayedPage := none,
          currentDisplayedTotal := none, sectionPage := 1,
          sectionTotalPages := 1, containerWidth := 0,
          sectionStartGlobalPage := 1, offset := 0, viewAvailable := true,
          renditionAvailable := true, stuckFlagged := false }
        { startCfi := "cfiA", endCfi := none, startLocation := some 49,
          endLocation := some 52, displayed := none }
        (some 49) (some 52) 49 (by decide) (by rfl) rfl).1
        { href := "c1", label := "Ch1", startLocationIndex := 0,
          endLocationIndex := 49 } (by decide)
    have h0 := h.2.2.2.2.2 rfl
    exact h0
  · have h :=
      (chapterLookupPublishesFirstContainingRange
        { locationsTotal := 100, locationFromCfi := fun _ => .ok none,
          measuredWidth := none }
        [{ href := "c1", label := "Ch1", startLocationIndex := 0,
           endLocationIndex := 49 },
         { href := "c2", label := "Ch2", startLocationIndex := 50,
           endLocationIndex := 99 }]
        { currentLocation := "", currentPage := 1, pagesLeftInChapter := none,
          currentChapterName := "", pendingPage := none,
          pageUpdateScheduled := false, lastNavigationTime := 0,
          currentLocationIndex := 0, isNavigating := false,
          lastRequestedLocationIndex := none, currentStartLocation := none,
          currentEndLocation := none, lastRelocatedStart := none,
          lastRelocatedEnd := none, currentDisplayedPage := none,
          currentDisplayedTotal := none, sectionPage := 1,
          sectionTotalPages := 1, containerWidth := 0,
          sectionStartGlobalPage := 1, offset := 0, viewAvailable := true,
          renditionAvailable := true, stuckFlagged := false }
        { startCfi := "cfiB", endCfi := none, startLocation := some 50,
          endLocation := some 52, displayed := none }
        (some 50) (some 52) 50 (by decide) (by rfl) rfl).1
        { href := "c2", label := "Ch2", startLocationIndex := 50,
          endLocationIndex := 99 } (by decide)
    exact h.2.1

theorem submitPageIfValid_pagesLeft (x : ReaderState) (si : Option Int) :
    (submitPageIfValid x si).pagesLeftInChapter = x.pagesLeftInChapter := by
  unfold submitPageIfValid
  rcases si with _ | v
  · rfl
  · dsimp only
    split
    · rw [submitPage_eq]
    · rfl

theorem chapterAfterSubmit_pagesLeft (ch : List ChapterRange) (x : ReaderState)
    (si : Option Int) (n : Int)
    (h : (chapterUpdate ch (submitPageIfValid x si) si).pagesLeftInChapter = some n) :
    x.pagesLeftInChapter = some n ∨ 0 ≤ n := by
  rcases chapterUpdate_pagesLeft_cases ch (submitPageIfValid x si) si with hc | hc | ⟨k, hk⟩
  · rw [hc, submitPageIfValid_pagesLeft] at h
    exact Or.inl h
  · rw [hc] at h
    cases h
  · rw [hk] at h
    cases h
    exact Or.inr (le_max_left 0 k)

/-- C10: whenever a relocation event leaves `pagesLeftInChapter` holding
a number, that number is non-negative: any freshly published value is
`max 0 (endLocationIndex − startIndex)`, and a retained value was
non-negative by the same argument for the event that wrote it. -/
theorem pagesLeftInChapterNeverNegative :
    ∀ (env : BookEnv) (ch : List ChapterRange) (s : ReaderState)
      (e : RelocatedEvent) (n : Int),
      (∀ m, s.pagesLeftInChapter = some m → 0 ≤ m) →
      (relocatedStep env ch s e).pagesLeftInChapter = some n → 0 ≤ n := by
  intro env ch s e n hinv hn
  by_cases htot : env.locationsTotal = 0
  · rw [relocatedStep_notReady_eq env ch s e htot] at hn
    exact hinv n hn
  · rcases hres : resolveIndices env e with u | ⟨stIdx, enIdx⟩
    · cases u
      rw [relocatedStep_err_eq env ch s e htot hres] at hn
      exact hinv n hn
    · rw [relocatedStep_ok_eq env ch s e stIdx enIdx htot hres] at hn
      have hx :
          (updateViewportRefs
            (syncDisplayed env
              { s with stuckFlagged := stuckCheck s stIdx enIdx,
                       currentLocation := e.startCfi,
                       lastRelocatedStart := stIdx, lastRelocatedEnd := enIdx }
              stIdx e.displayed)
            stIdx enIdx).pagesLeftInChapter = s.pagesLeftInChapter := by
        obtain ⟨dp, dt, sp, stp, ssg, cw, off, h1⟩ :=
          syncDisplayed_exists env
            { s with stuckFlagged := stuckCheck s stIdx enIdx,
                     currentLocation := e.startCfi,
                     lastRelocatedStart := stIdx, lastRelocatedEnd := enIdx }
            stIdx e.displayed
        obtain ⟨cs, ce, ci, h2⟩ :=
          updateViewportRefs_exists
            (syncDisplayed env
              { s with stuckFlagged := stuckCheck s stIdx enIdx,
                       currentLocation := e.startCfi,
                       lastRelocatedStart := stIdx, lastRelocatedEnd := enIdx }
              stIdx e.displayed)
            stIdx enIdx
        rw [h2, h1]
      rcases chapterAfterSubmit_pagesLeft ch _ stIdx n hn with hc | hc
      · rw [hx] at hc
        exact hinv n hc
      · exact hc

/-- Witness for C10: a concrete relocation publishing a value through
the clamp, shown non-negative by the theorem. -/
theorem pagesLeftInChapterNeverNegative_witness : (0 : Int) ≤ 5 := by
  have h :=
    pagesLeftInChapterNeverNegative
      { locationsTotal := 10, locationFromCfi := fun _ => .ok none,
        measuredWidth := none }
      [{ href := "c", label := "C", startLocationIndex := 0,
         endLocationIndex := 7 }]
      { currentLocation := "", currentPage := 1, pagesLeftInChapter := none,
        currentChapterName := "", pendingPage := none,
        pageUpdateScheduled := false, lastNavigationTime := 0,
        currentLocationIndex := 0, isNavigating := false,
        lastRequestedLocationIndex := none, currentStartLocation := none,
        currentEndLocation := none, lastRelocatedStart := none,
        lastRelocatedEnd := none, currentDisplayedPage := none,
        currentDisplayedTotal := none, sectionPage := 1,
        sectionTotalPages := 1, containerWidth := 0,
        sectionStartGlobalPage := 1, offset := 0, viewAvailable := true,
        renditionAvailable := true, stuckFlagged := false }
      { startCfi := "x", endCfi := none, startLocation := some 2,
        endLocation := some 3, displayed := none }
      5 (by intro m hm; cases hm) (by decide)
  exact h

/-! Field-preservation lemmas: projections of state fields a stage does
not write pass through it unchanged. -/

theorem syncDisplayed_currentStartLocation (env : BookEnv) (s : ReaderState)
    (stIdx : Option Int) (disp : Option (Int × Int)) :
    (syncDisplayed env s stIdx disp).currentStartLocation = s.currentStartLocation := by
  obtain ⟨dp, dt, sp, stp, ssg, cw, off, h⟩ :=
    syncDisplayed_exists env s stIdx disp
  rw [h]

theorem syncDisplayed_currentEndLocation (env : BookEnv) (s : ReaderState)
    (stIdx : Option Int) (disp : Option (Int × Int)) :
    (syncDisplayed env s stIdx disp).currentEndLocation = s.currentEndLocation := by
  obtain ⟨dp, dt, sp, stp, ssg, cw, off, h⟩ :=
    syncDisplayed_exists env s stIdx disp
  rw [h]

theorem syncDisplayed_currentPage (env : BookEnv) (s : ReaderState)
    (stIdx : Option Int) (disp : Option (Int × Int)) :
    (syncDisplayed env s stIdx disp).currentPage = s.currentPage := by
  obtain ⟨dp, dt, sp, stp, ssg, cw, off, h⟩ :=
    syncDisplayed_exists env s stIdx disp
  rw [h]

theorem syncDisplayed_pendingPage (env : BookEnv) (s : ReaderState)
    (stIdx : Option Int) (disp : Option (Int × Int)) :
    (syncDisplayed env s stIdx disp).pendingPage = s.pendingPage := by
  obtain ⟨dp, dt, sp, stp, ssg, cw, off, h⟩ :=
    syncDisplayed_exists env s stIdx disp
  rw [h]

theorem syncDisplayed_pageUpdateScheduled (env : BookEnv) (s : ReaderState)
    (stIdx : Option Int) (disp : Option (Int × Int)) :
    (syncDisplayed env s stIdx disp).pageUpdateScheduled = s.pageUpdateScheduled := by
  obtain ⟨dp, dt, sp, stp, ssg, cw, off, h⟩ :=
    syncDisplayed_exists env s stIdx disp
  rw [h]

theorem syncDisplayed_currentLocation (env : BookEnv) (s : ReaderState)
    (stIdx : Option Int) (disp : Option (Int × Int)) :
    (syncDisplayed env s stIdx disp).currentLocation = s.currentLocation := by
  obtain ⟨dp, dt, sp, stp, ssg, cw, off, h⟩ :=
    syncDisplayed_exists env s stIdx disp
  rw [h]

theorem syncDisplayed_lastRelocatedStart (env : BookEnv) (s : ReaderState)
    (stIdx : Option Int) (disp : Option (Int × Int)) :
    (syncDisplayed env s stIdx disp).lastRelocatedStart = s.lastRelocatedStart := by
  obtain ⟨dp, dt, sp, stp, ssg, cw, off, h⟩ :=
    syncDisplayed_exists env s stIdx disp
  rw [h]

theorem syncDisplayed_lastRelocatedEnd (env : BookEnv) (s : ReaderState)
    (stIdx : Option Int) (disp : Option (Int × Int)) :
    (syncDisplayed env s stIdx disp).lastRelocatedEnd = s.lastRelocatedEnd := by
  obtain ⟨dp, dt, sp, stp, ssg, cw, off, h⟩ :=
    syncDisplayed_exists env s stIdx disp
  rw [h]

theorem syncDisplayed_stuckFlagged (env : BookEnv) (s : ReaderState)
    (stIdx : Option Int) (disp : Option (Int × Int)) :
    (syncDisplayed env s stIdx disp).stuckFlagged = s.stuckFlagged := by
  obtain ⟨dp, dt, sp, stp, ssg, cw, off, h⟩ :=
    syncDisplayed_exists env s stIdx disp
  rw [h]

theorem syncDisplayed_lastRequestedLocationIndex (env : BookEnv) (s : ReaderState)
    (stIdx : Option Int) (disp : Option (Int × Int)) :
    (syncDisplayed env s stIdx disp).lastRequestedLocationIndex = s.lastRequestedLocationIndex := by
  obtain ⟨dp, dt, sp, stp, ssg, cw, off, h⟩ :=
    syncDisplayed_exists env s stIdx disp
  rw [h]

theorem syncDisplayed_pagesLeftInChapter (env : BookEnv) (s : ReaderState)
    (stIdx : Option Int) (disp : Option (Int × Int)) :
    (syncDisplayed env s stIdx disp).pagesLeftInChapter = s.pagesLeftInChapter := by
  obtain ⟨dp, dt, sp, stp, ssg, cw, off, h⟩ :=
    syncDisplayed_exists env s stIdx disp
  rw [h]

theorem syncDisplayed_currentChapterName (env : BookEnv) (s : ReaderState)
    (stIdx : Option Int) (disp : Option (Int × Int)) :
    (syncDisplayed env s stIdx disp).currentChapterName = s.currentChapterName := by
  obtain ⟨dp, dt, sp, stp, ssg, cw, off, h⟩ :=
    syncDisplayed_exists env s stIdx disp
  rw [h]

theorem syncDisplayed_viewAvailable (env : BookEnv) (s : ReaderState)
    (stIdx : Option Int) (disp : Option (Int × Int)) :
    (syncDisplayed env s stIdx disp).viewAvailable = s.viewAvailable := by
  obtain ⟨dp, dt, sp, stp, ssg, cw, off, h⟩ :=
    syncDisplayed_exists env s stIdx disp
  rw [h]

theorem syncDisplayed_renditionAvailable (env : BookEnv) (s : ReaderState)
    (stIdx : Option Int) (disp : Option (Int × Int)) :
    (syncDisplayed env s stIdx disp).renditionAvailable = s.renditionAvailable := by
  obtain ⟨dp, dt, sp, stp, ssg, cw, off, h⟩ :=
    syncDisplayed_exists env s stIdx disp
  rw [h]

theorem updateViewportRefs_currentPage (s : ReaderState) (stIdx enIdx : Option Int) :
    (updateViewportRefs s stIdx enIdx).currentPage = s.currentPage := by
  obtain ⟨cs, ce, ci, h⟩ := updateViewportRefs_exists s stIdx enIdx
  rw [h]

theorem updateViewportRefs_pendingPage (s : ReaderState) (stIdx enIdx : Option Int) :
    (updateViewportRefs s stIdx enIdx).pendingPage = s.pendingPage := by
  obtain ⟨cs, ce, ci, h⟩ := updateViewportRefs_exists s stIdx enIdx
  rw [h]

theorem updateViewportRefs_pageUpdateScheduled (s : ReaderState) (stIdx enIdx : Option Int) :
    (updateViewportRefs s stIdx enIdx).pageUpdateScheduled = s.pageUpdateScheduled := by
  obtain ⟨cs, ce, ci, h⟩ := updateViewportRefs_exists s stIdx enIdx
  rw [h]

theorem updateViewportRefs_currentLocation (s : ReaderState) (stIdx enIdx : Option Int) :
    (updateViewportRefs s stIdx enIdx).currentLocation = s.currentLocation := by
  obtain ⟨cs, ce, ci, h⟩ := updateViewportRefs_exists s stIdx enIdx
  rw [h]

theorem updateViewportRefs_lastRelocatedStart (s : ReaderState) (stIdx enIdx : Option Int) :
    (updateViewportRefs s stIdx enIdx).lastRelocatedStart = s.lastRelocatedStart := by
  obtain ⟨cs, ce, ci, h⟩ := updateViewportRefs_exists s stIdx enIdx
  rw [h]

theorem updateViewportRefs_lastRelocatedEnd (s : ReaderState) (stIdx enIdx : Option Int) :
    (updateViewportRefs s stIdx enIdx).lastRelocatedEnd = s.lastRelocatedEnd := by
  obtain ⟨cs, ce, ci, h⟩ := updateViewportRefs_exists s stIdx enIdx
  rw [h]

theorem updateViewportRefs_stuckFlagged (s : ReaderState) (stIdx enIdx : Option Int) :
    (updateViewportRefs s stIdx enIdx).stuckFlagged = s.stuckFlagged := by
  obtain ⟨cs, ce, ci, h⟩ := updateViewportRefs_exists s stIdx enIdx
  rw [h]

theorem updateViewportRefs_lastRequestedLocationIndex (s : ReaderState) (stIdx enIdx : Option Int) :
    (updateViewportRefs s stIdx enIdx).lastRequestedLocationIndex = s.lastRequestedLocationIndex := by
  obtain ⟨cs, ce, ci, h⟩ := updateViewportRefs_exists s stIdx enIdx
  rw [h]

theorem updateViewportRefs_pagesLeftInChapter (s : ReaderState) (stIdx enIdx : Option Int) :
    (updateViewportRefs s stIdx enIdx).pagesLeftInChapter = s.pagesLeftInChapter := by
  obtain ⟨cs, ce, ci, h⟩ := updateViewportRefs_exists s stIdx enIdx
  rw [h]

theorem updateViewportRefs_currentChapterName (s : ReaderState) (stIdx enIdx : Option Int) :
    (updateViewportRefs s stIdx enIdx).currentChapterName = s.currentChapterName := by
  obtain ⟨cs, ce, ci, h⟩ := updateViewportRefs_exists s stIdx enIdx
  rw [h]

theorem updateViewportRefs_sectionPage (s : ReaderState) (stIdx enIdx : Option Int) :
    (updateViewportRefs s stIdx enIdx).sectionPage = s.sectionPage := by
  obtain ⟨cs, ce, ci, h⟩ := updateViewportRefs_exists s stIdx enIdx
  rw [h]

theorem updateViewportRefs_sectionTotalPages (s : ReaderState) (stIdx enIdx : Option Int) :
    (updateViewportRefs s stIdx enIdx).sectionTotalPages = s.sectionTotalPages := by
  obtain ⟨cs, ce, ci, h⟩ := updateViewportRefs_exists s stIdx enIdx
  rw [h]

theorem updateViewportRefs_sectionStartGlobalPage (s : ReaderState) (stIdx enIdx : Option Int) :
    (updateViewportRefs s stIdx enIdx).sectionStartGlobalPage = s.sectionStartGlobalPage := by
  obtain ⟨cs, ce, ci, h⟩ := updateViewportRefs_exists s stIdx enIdx
  rw [h]

theorem updateViewportRefs_offset (s : ReaderState) (stIdx enIdx : Option Int) :
    (updateViewportRefs s stIdx enIdx).offset = s.offset := by
  obtain ⟨cs, ce, ci, h⟩ := updateViewportRefs_exists s stIdx enIdx
  rw [h]

theorem updateViewportRefs_viewAvailable (s : ReaderState) (stIdx enIdx : Option Int) :
    (updateViewportRefs s stIdx enIdx).viewAvailable = s.viewAvailable := by
  obtain ⟨cs, ce, ci, h⟩ := updateViewportRefs_exists s stIdx enIdx
  rw [h]

theorem updateViewportRefs_renditionAvailable (s : ReaderState) (stIdx enIdx : Option Int) :
    (updateViewportRefs s stIdx enIdx).renditionAvailable = s.renditionAvailable := by
  obtain ⟨cs, ce, ci, h⟩ := updateViewportRefs_exists s stIdx enIdx
  rw [h]

theorem submitPageIfValid_exists (s : ReaderState) (si : Option Int) :
    ∃ pp sch, submitPageIfValid s si =
      { s with pendingPage := pp, pageUpdateScheduled := sch } := by
  unfold submitPageIfValid
  rcases si with _ | v
  · exact ⟨s.pendingPage, s.pageUpdateScheduled, rfl⟩
  · dsimp only
    split
    · exact ⟨_, _, submitPage_eq _ _⟩
    · exact ⟨s.pendingPage, s.pageUpdateScheduled, rfl⟩

theorem submitPageIfValid_currentStartLocation (s : ReaderState) (si : Option Int) :
    (submitPageIfValid s si).currentStartLocation = s.currentStartLocation := by
  obtain ⟨pp, sch, h⟩ := submitPageIfValid_exists s si
  rw [h]

theorem submitPageIfValid_currentEndLocation (s : ReaderState) (si : Option Int) :
    (submitPageIfValid s si).currentEndLocation = s.currentEndLocation := by
  obtain ⟨pp, sch, h⟩ := submitPageIfValid_exists s si
  rw [h]

theorem submitPageIfValid_currentLocationIndex (s : ReaderState) (si : Option Int) :
    (submitPageIfValid s si).currentLocationIndex = s.currentLocationIndex := by
  obtain ⟨pp, sch, h⟩ := submitPageIfValid_exists s si
  rw [h]

theorem submitPageIfValid_currentPage (s : ReaderState) (si : Option Int) :
    (submitPageIfValid s si).currentPage = s.currentPage := by
  obtain ⟨pp, sch, h⟩ := submitPageIfValid_exists s si
  rw [h]

theorem submitPageIfValid_currentLocation (s : ReaderState) (si : Option Int) :
    (submitPageIfValid s si).currentLocation = s.currentLocation := by
  obtain ⟨pp, sch, h⟩ := submitPageIfValid_exists s si
  rw [h]

theorem submitPageIfValid_lastRelocatedStart (s : ReaderState) (si : Option Int) :
    (submitPageIfValid s si).lastRelocatedStart = s.lastRelocatedStart := by
  obtain ⟨pp, sch, h⟩ := submitPageIfValid_exists s si
  rw [h]

theorem submitPageIfValid_lastRelocatedEnd (s : ReaderState) (si : Option Int) :
    (submitPageIfValid s si).lastRelocatedEnd = s.lastRelocatedEnd := by
  obtain ⟨pp, sch, h⟩ := submitPageIfValid_exists s si
  rw [h]

theorem submitPageIfValid_stuckFlagged (s : ReaderState) (si : Option Int) :
    (submitPageIfValid s si).stuckFlagged = s.stuckFlagged := by
  obtain ⟨pp, sch, h⟩ := submitPageIfValid_exists s si
  rw [h]

theorem submitPageIfValid_lastRequestedLocationIndex (s : ReaderState) (si : Option Int) :
    (submitPageIfValid s si).lastRequestedLocationIndex = s.lastRequestedLocationIndex := by
  obtain ⟨pp, sch, h⟩ := submitPageIfValid_exists s si
  rw [h]

theorem submitPageIfValid_currentChapterName (s : ReaderState) (si : Option Int) :
    (submitPageIfValid s si).currentChapterName = s.currentChapterName := by
  obtain ⟨pp, sch, h⟩ := submitPageIfValid_exists s si
  rw [h]

theorem submitPageIfValid_sectionPage (s : ReaderState) (si : Option Int) :
    (submitPageIfValid s si).sectionPage = s.sectionPage := by
  obtain ⟨pp, sch, h⟩ := submitPageIfValid_exists s si
  rw [h]

theorem submitPageIfValid_sectionTotalPages (s : ReaderState) (si : Option Int) :
    (submitPageIfValid s si).sectionTotalPages = s.sectionTotalPages := by
  obtain ⟨pp, sch, h⟩ := submitPageIfValid_exists s si
  rw [h]

theorem submitPageIfValid_sectionStartGlobalPage (s : ReaderState) (si : Option Int) :
    (submitPageIfValid s si).sectionStartGlobalPage = s.sectionStartGlobalPage := by
  obtain ⟨pp, sch, h⟩ := submitPageIfValid_exists s si
  rw [h]

theorem submitPageIfValid_offset (s : ReaderState) (si : Option Int) :
    (submitPageIfValid s si).offset = s.offset := by
  obtain ⟨pp, sch, h⟩ := submitPageIfValid_exists s si
  rw [h]

theorem submitPageIfValid_viewAvailable (s : ReaderState) (si : Option Int) :
    (submitPageIfValid s si).viewAvailable = s.viewAvailable := by
  obtain ⟨pp, sch, h⟩ := submitPageIfValid_exists s si
  rw [h]

theorem submitPageIfValid_renditionAvailable (s : ReaderState) (si : Option Int) :
    (submitPageIfValid s si).renditionAvailable = s.renditionAvailable := by
  obtain ⟨pp, sch, h⟩ := submitPageIfValid_exists s si
  rw [h]

theorem chapterUpdate_currentStartLocation (ch : List ChapterRange) (s : ReaderState)
    (stIdx : Option Int) :
    (chapterUpdate ch s stIdx).currentStartLocation = s.currentStartLocation := by
  obtain ⟨pl, cn, h⟩ := chapterUpdate_exists ch s stIdx
  rw [h]

theorem chapterUpdate_currentEndLocation (ch : List ChapterRange) (s : ReaderState)
    (stIdx : Option Int) :
    (chapterUpdate ch s stIdx).currentEndLocation = s.currentEndLocation := by
  obtain ⟨pl, cn, h⟩ := chapterUpdate_exists ch s stIdx
  rw [h]

theorem chapterUpdate_currentPage (ch : List ChapterRange) (s : ReaderState)
    (stIdx : Option Int) :
    (chapterUpdate ch s stIdx).currentPage = s.currentPage := by
  obtain ⟨pl, cn, h⟩ := chapterUpdate_exists ch s stIdx
  rw [h]

theorem chapterUpdate_pendingPage (ch : List ChapterRange) (s : ReaderState)
    (stIdx : Option Int) :
    (chapterUpdate ch s stIdx).pendingPage = s.pendingPage := by
  obtain ⟨pl, cn, h⟩ := chapterUpdate_exists ch s stIdx
  rw [h]

theorem chapterUpdate_pageUpdateScheduled (ch : List ChapterRange) (s : ReaderState)
    (stIdx : Option Int) :
    (chapterUpdate ch s stIdx).pageUpdateScheduled = s.pageUpdateScheduled := by
  obtain ⟨pl, cn, h⟩ := chapterUpdate_exists ch s stIdx
  rw [h]

theorem chapterUpdate_currentLocation (ch : List ChapterRange) (s : ReaderState)
    (stIdx : Option Int) :
    (chapterUpdate ch s stIdx).currentLocation = s.currentLocation := by
  obtain ⟨pl, cn, h⟩ := chapterUpdate_exists ch s stIdx
  rw [h]

theorem chapterUpdate_lastRelocatedStart (ch : List ChapterRange) (s : ReaderState)
    (stIdx : Option Int) :
    (chapterUpdate ch s stIdx).lastRelocatedStart = s.lastRelocatedStart := by
  obtain ⟨pl, cn, h⟩ := chapterUpdate_exists ch s stIdx
  rw [h]

theorem chapterUpdate_lastRelocatedEnd (ch : List ChapterRange) (s : ReaderState)
    (stIdx : Option Int) :
    (chapterUpdate ch s stIdx).lastRelocatedEnd = s.lastRelocatedEnd := by
  obtain ⟨pl, cn, h⟩ := chapterUpdate_exists ch s stIdx
  rw [h]

theorem chapterUpdate_stuckFlagged (ch : List ChapterRange) (s : ReaderState)
    (stIdx : Option Int) :
    (chapterUpdate ch s stIdx).stuckFlagged = s.stuckFlagged := by
  obtain ⟨pl, cn, h⟩ := chapterUpdate_exists ch s stIdx
  rw [h]

theorem chapterUpdate_lastRequestedLocationIndex (ch : List ChapterRange) (s : ReaderState)
    (stIdx : Option Int) :
    (chapterUpdate ch s stIdx).lastRequestedLocationIndex = s.lastRequestedLocationIndex := by
  obtain ⟨pl, cn, h⟩ := chapterUpdate_exists ch s stIdx
  rw [h]

theorem chapterUpdate_sectionPage (ch : List ChapterRange) (s : ReaderState)
    (stIdx : Option Int) :
    (chapterUpdate ch s stIdx).sectionPage = s.sectionPage := by
  obtain ⟨pl, cn, h⟩ := chapterUpdate_exists ch s stIdx
  rw [h]

theorem chapterUpdate_sectionTotalPages (ch : List ChapterRange) (s : ReaderState)
    (stIdx : Option Int) :
    (chapterUpdate ch s stIdx).sectionTotalPages = s.sectionTotalPages := by
  obtain ⟨pl, cn, h⟩ := chapterUpdate_exists ch s stIdx
  rw [h]

theorem chapterUpdate_sectionStartGlobalPage (ch : List ChapterRange) (s : ReaderState)
    (stIdx : Option Int) :
    (chapterUpdate ch s stIdx).sectionStartGlobalPage = s.sectionStartGlobalPage := by
  obtain ⟨pl, cn, h⟩ := chapterUpdate_exists ch s stIdx
  rw [h]

theorem chapterUpdate_offset (ch : List ChapterRange) (s : ReaderState)
    (stIdx : Option Int) :
    (chapterUpdate ch s stIdx).offset = s.offset := by
  obtain ⟨pl, cn, h⟩ := chapterUpdate_exists ch s stIdx
  rw [h]

theorem chapterUpdate_viewAvailable (ch : List ChapterRange) (s : ReaderState)
    (stIdx : Option Int) :
    (chapterUpdate ch s stIdx).viewAvailable = s.viewAvailable := by
  obtain ⟨pl, cn, h⟩ := chapterUpdate_exists ch s stIdx
  rw [h]

theorem chapterUpdate_renditionAvailable (ch : List ChapterRange) (s : ReaderState)
    (stIdx : Option Int) :
    (chapterUpdate ch s stIdx).renditionAvailable = s.renditionAvailable := by
  obtain ⟨pl, cn, h⟩ := chapterUpdate_exists ch s stIdx
  rw [h]

theorem submitPageIfValid_valid_pending (s : ReaderState) (st : Int) (h : 0 ≤ st) :
    (submitPageIfValid s (some st)).pendingPage = some (max 1 (st + 1)) := by
  rw [submitPageIfValid_some_eq s st h, submitPage_eq]

theorem rafFlush_currentPage_of_pending (s : ReaderState) (p : Int)
    (h : s.pendingPage = some p) : (rafFlush s).currentPage = p := by
  unfold rafFlush
  rw [h]

theorem rafFlush_pending_none (s : ReaderState) : (rafFlush s).pendingPage = none := by
  unfold rafFlush
  rcases h : s.pendingPage with _ | p <;> simp [h]

theorem foldl_submitPage_currentPage (vs : List Int) :
    ∀ (s : ReaderState), (vs.foldl submitPage s).currentPage = s.currentPage := by
  induction vs with
  | nil => intro s; rfl
  | cons v rest ih =>
      intro s
      rw [List.foldl_cons, ih, submitPage_eq]

/-- The initial values of the state cells and refs of the Reader
component (Reader.tsx:1860-1952): page 1, nothing pending, no viewport
known yet, section state 1/1, measured width 0. -/
def initState : ReaderState :=
  { currentLocation := "", currentPage := 1, pagesLeftInChapter := none,
    currentChapterName := "", pendingPage := none, pageUpdateScheduled := false,
    lastNavigationTime := 0, currentLocationIndex := 0, isNavigating := false,
    lastRequestedLocationIndex := none, currentStartLocation := none,
    currentEndLocation := none, lastRelocatedStart := none,
    lastRelocatedEnd := none, currentDisplayedPage := none,
    currentDisplayedTotal := none, sectionPage := 1, sectionTotalPages := 1,
    containerWidth := 0, sectionStartGlobalPage := 1, offset := 0,
    viewAvailable := true, renditionAvailable := true, stuckFlagged := false }

/-- C4: page-number updates are coalesced last-write-wins.  Any finite
sequence of submissions before the scheduled flush leaves `currentPage`
untouched and exactly one flush scheduled; the flush then applies only
the last submitted value and clears the pending slot.  Meanwhile each
relocation event synchronously updates the viewport range and
chapter-progress state, while its page-number value only reaches
`currentPage` at the flush. -/
theorem pageNumberCoalescingLastWriteWins :
    (∀ (s : ReaderState) (vs : List Int) (v : Int),
        ((vs ++ [v]).foldl submitPage s).currentPage = s.currentPage ∧
        ((vs ++ [v]).foldl submitPage s).pageUpdateScheduled = true ∧
        (rafFlush ((vs ++ [v]).foldl submitPage s)).currentPage = v ∧
        (rafFlush ((vs ++ [v]).foldl submitPage s)).pendingPage = none) ∧
    (∀ (env : BookEnv) (ch : List ChapterRange) (s : ReaderState)
        (e : RelocatedEvent) (stIdx enIdx : Option Int) (st en : Int)
        (c : ChapterRange),
        env.locationsTotal ≠ 0 →
        resolveIndices env e = .ok (stIdx, enIdx) →
        stIdx = some st → 0 ≤ st → enIdx = some en → 0 ≤ en →
        (relocatedStep env ch s e).currentStartLocation = some st ∧
        (relocatedStep env ch s e).currentEndLocation = some en ∧
        (firstContaining ch st = some c →
          (relocatedStep env ch s e).pagesLeftInChapter =
            some (max 0 (c.endLocationIndex - st))) ∧
        (relocatedStep env ch s e).currentPage = s.currentPage ∧
        (relocatedStep env ch s e).pendingPage = some (max 1 (st + 1))) := by
  constructor
  · intro s vs v
    have hpend : ((vs ++ [v]).foldl submitPage s).pendingPage = some v := by
      rw [List.foldl_append, List.foldl_cons, List.foldl_nil, submitPage_eq]
    refine ⟨foldl_submitPage_currentPage (vs ++ [v]) s, ?_, ?_, ?_⟩
    · rw [List.foldl_append, List.foldl_cons, List.foldl_nil, submitPage_eq]
    · exact rafFlush_currentPage_of_pending _ v hpend
    · exact rafFlush_pending_none _
  · intro env ch s e stIdx enIdx st en c htot hres hst hst0 hen hen0
    subst hst
    subst hen
    rw [relocatedStep_ok_eq env ch s e (some st) (some en) htot hres]
    refine ⟨?_, ?_, ?_, ?_, ?_⟩
    · rw [chapterUpdate_currentStartLocation, submitPageIfValid_currentStartLocation,
          updateViewportRefs_valid_eq _ st en hst0 hen0]
    · rw [chapterUpdate_currentEndLocation, submitPageIfValid_currentEndLocation,
          updateViewportRefs_valid_eq _ st en hst0 hen0]
    · intro hc
      rw [chapterUpdate_containing ch _ st c hc]
    · rw [chapterUpdate_currentPage, submitPageIfValid_currentPage,
          updateViewportRefs_currentPage, syncDisplayed_currentPage]
    · rw [chapterUpdate_pendingPage, submitPageIfValid_valid_pending _ st hst0]

/-- Witness for C4: three submissions (3, 7, 12) before the flush leave
`currentPage` at 1 and the flush applies 12 only; a concrete relocation
updates the viewport refs at once while `currentPage` stays 1. -/
theorem pageNumberCoalescingLastWriteWins_witness :
    (rafFlush (([3, 7] ++ [12]).foldl submitPage initState)).currentPage = 12 ∧
    (([3, 7] ++ [12]).foldl submitPage initState).currentPage = 1 ∧
    (relocatedStep
        { locationsTotal := 100, locationFromCfi := fun _ => .ok none,
          measuredWidth := none }
        [] initState
        { startCfi := "w", endCfi := none, startLocation := some 4,
          endLocation := some 6, displayed := none }).currentStartLocation =
      some 4 := by
  refine ⟨(pageNumberCoalescingLastWriteWins.1 initState [3, 7] 12).2.2.1,
    (pageNumberCoalescingLastWriteWins.1 initState [3, 7] 12).1, ?_⟩
  exact (pageNumberCoalescingLastWriteWins.2
    { locationsTotal := 100, locationFromCfi := fun _ => .ok none,
      measuredWidth := none }
    [] initState
    { startCfi := "w", endCfi := none, startLocation := some 4,
      endLocation := some 6, displayed := none }
    (some 4) (some 6) 4 6
    { href := "", label := "", startLocationIndex := 0, endLocationIndex := 0 }
    (by decide) (by rfl) rfl (by decide) rfl (by decide)).1

theorem applyPageTransform_eq (s : ReaderState) (p : Int)
    (hr : s.renditionAvailable = true) (hv : s.viewAvailable = true) :
    applyPageTransform s p =
      { s with offset := (p - 1) * pageWidth s, sectionPage := p } := by
  unfold applyPageTransform
  rw [hr, hv]
  simp

theorem goToNextPage_within (s : ReaderState) (hr : s.renditionAvailable = true)
    (hv : s.viewAvailable = true) (h : s.sectionPage < s.sectionTotalPages) :
    goToNextPage s =
      (submitPage
        { s with offset := s.sectionPage * pageWidth s,
                 sectionPage := s.sectionPage + 1 }
        (s.sectionStartGlobalPage + s.sectionPage), .withinSection) := by
  unfold goToNextPage
  rw [if_neg (by simp [hr]), if_pos h]
  dsimp only
  rw [applyPageTransform_eq s (s.sectionPage + 1) hr hv]
  have h1 : s.sectionPage + 1 - 1 = s.sectionPage := by omega
  rw [h1]

/-- C5: the fallback `advance()` below the section's last page moves
`sectionPage` up by exactly one, applies the visual offset
`(newPage − 1) × width` and submits the global page
`sectionStartGlobalPage + (sectionPage − 1)`, so consecutive in-section
advances submit values one apart; at the last page it delegates to the
renderer's next-section command, whose completion resets
`sectionPage` to 1. -/
theorem fallbackAdvanceSemantics :
    ∀ (s : ReaderState),
      s.renditionAvailable = true → s.viewAvailable = true →
      (s.sectionPage < s.sectionTotalPages →
        (goToNextPage s).2 = AdvanceAction.withinSection ∧
        (goToNextPage s).1.sectionPage = s.sectionPage + 1 ∧
        (goToNextPage s).1.offset = s.sectionPage * pageWidth s ∧
        (goToNextPage s).1.pendingPage =
          some (s.sectionStartGlobalPage + (s.sectionPage + 1 - 1)) ∧
        (s.sectionPage + 1 < s.sectionTotalPages →
          ∃ p1 p2,
            (goToNextPage s).1.pendingPage = some p1 ∧
            (goToNextPage (goToNextPage s).1).1.pendingPage = some p2 ∧
            p2 = p1 + 1)) ∧
      (s.sectionPage = s.sectionTotalPages →
        (goToNextPage s).2 = AdvanceAction.delegatedNextSection ∧
        (onNextSectionComplete (goToNextPage s).1).sectionPage = 1) := by
  intro s hr hv
  constructor
  · intro h
    have hs1 := goToNextPage_within s hr hv h
    have e1 : (goToNextPage s).1.pendingPage =
        some (s.sectionStartGlobalPage + s.sectionPage) := by
      rw [hs1, submitPage_eq]
    have e2 : (goToNextPage s).1.renditionAvailable = true := by
      rw [hs1, submitPage_eq]; exact hr
    have e3 : (goToNextPage s).1.viewAvailable = true := by
      rw [hs1, submitPage_eq]; exact hv
    have e4 : (goToNextPage s).1.sectionPage = s.sectionPage + 1 := by
      rw [hs1, submitPage_eq]
    have e5 : (goToNextPage s).1.sectionTotalPages = s.sectionTotalPages := by
      rw [hs1, submitPage_eq]
    have e6 : (goToNextPage s).1.sectionStartGlobalPage =
        s.sectionStartGlobalPage := by
      rw [hs1, submitPage_eq]
    have e7 : (goToNextPage s).1.offset = s.sectionPage * pageWidth s := by
      rw [hs1, submitPage_eq]
    have h1 : s.sectionPage + 1 - 1 = s.sectionPage := by omega
    refine ⟨by rw [hs1], e4, e7, by rw [h1]; exact e1, ?_⟩
    intro h2
    have hlt : (goToNextPage s).1.sectionPage <
        (goToNextPage s).1.sectionTotalPages := by
      rw [e4, e5]; exact h2
    refine ⟨s.sectionStartGlobalPage + s.sectionPage,
      (goToNextPage s).1.sectionStartGlobalPage +
        (goToNextPage s).1.sectionPage, e1, ?_, ?_⟩
    · rw [goToNextPage_within _ e2 e3 hlt, submitPage_eq]
    · rw [e4, e6]
      omega
  · intro heq
    have hnot : ¬s.sectionPage < s.sectionTotalPages := by omega
    have hdel : goToNextPage s = (s, AdvanceAction.delegatedNextSection) := by
      unfold goToNextPage
      rw [if_neg (by simp [hr]), if_neg hnot]
    rw [hdel]
    refine ⟨rfl, ?_⟩
    show (onNextSectionComplete s).sectionPage = 1
    unfold onNextSectionComplete
    rw [applyPageTransform_eq { s with sectionPage := 1 } 1 hr hv]

/-- Witness for C5, on the spec's traversal scenario: with
`sectionTotalPages = 3`, an advance from page 1 lands on page 2, and an
advance from page 3 delegates to the next-section command. -/
theorem fallbackAdvanceSemantics_witness :
    (goToNextPage { initState with sectionTotalPages := 3 }).1.sectionPage = 2 ∧
    (goToNextPage
        { initState with sectionPage := 3, sectionTotalPages := 3 }).2 =
      AdvanceAction.delegatedNextSection := by
  constructor
  · exact ((fallbackAdvanceSemantics { initState with sectionTotalPages := 3 }
      rfl rfl).1 (by decide)).2.1
  · exact ((fallbackAdvanceSemantics
      { initState with sectionPage := 3, sectionTotalPages := 3 }
      rfl rfl).2 rfl).1

/-- C6 (amended): the debounce guarantees at most one acceptance per
window, not exactly one.  An accepted tap stamps the window start and
sets the single-flight flag; dropped taps (including center taps) leave
the state — and hence the window — unchanged; completion of a
navigation does not move the window; and any tap arriving less than
200 ms after the current window start is rejected. -/
theorem tapDebounceAtMostOneAccepted :
    (∀ (s : ReaderState) (t : TapEvent) (d : NavDirection),
        (classifyTap s t).2 = TapOutcome.accepted d →
        (classifyTap s t).1.lastNavigationTime = t.time ∧
        (classifyTap s t).1.isNavigating = true) ∧
    (∀ (s : ReaderState) (t : TapEvent),
        (∀ d, (classifyTap s t).2 ≠ TapOutcome.accepted d) →
        (classifyTap s t).1 = s) ∧
    (∀ (s : ReaderState),
        (navComplete s).lastNavigationTime = s.lastNavigationTime) ∧
    (∀ (s : ReaderState) (t : TapEvent),
        t.time - s.lastNavigationTime < 200 →
        ∀ d, (classifyTap s t).2 ≠ TapOutcome.accepted d) := by
  refine ⟨?_, ?_, ?_, ?_⟩
  · intro s t d h
    unfold classifyTap at h ⊢
    split_ifs at h ⊢ <;> simp_all
  · intro s t hno
    unfold classifyTap at hno ⊢
    split_ifs at hno ⊢ <;> try rfl
    all_goals exact absurd rfl (hno _)
  · intro s
    rfl
  · intro s t hlt d
    unfold classifyTap
    split_ifs with h1 h2 h3 h4 h5 h6 h7 <;>
      first
      | exact absurd hlt h4
      | simp

/-- Witness for C6 (amended): a tap at t=1000 is accepted and stamps
the window; a tap at t=1100 against that window is rejected. -/
theorem tapDebounceAtMostOneAccepted_witness :
    (classifyTap initState
        { time := 1000, onLink := false, chatOpen := false,
          hasSelection := false, clientX := 800,
          viewportWidth := 1000 }).1.lastNavigationTime = 1000 ∧
    (classifyTap { initState with lastNavigationTime := 1000 }
        { time := 1100, onLink := false, chatOpen := false,
          hasSelection := false, clientX := 800, viewportWidth := 1000 }).2 ≠
      TapOutcome.accepted NavDirection.next := by
  constructor
  · exact (tapDebounceAtMostOneAccepted.1 initState
      { time := 1000, onLink := false, chatOpen := false,
        hasSelection := false, clientX := 800, viewportWidth := 1000 }
      NavDirection.next (by decide)).1
  · exact tapDebounceAtMostOneAccepted.2.2.2
      { initState with lastNavigationTime := 1000 }
      { time := 1100, onLink := false, chatOpen := false,
        hasSelection := false, clientX := 800, viewportWidth := 1000 }
      (by decide) NavDirection.next

/-- C6 counterexample: in a run with an accepted navigation at t=1000
(completed immediately), two further non-center, non-link,
non-selection taps at t=1100 and t=1150 differ by less than 200 ms yet
are BOTH dropped by the debounce — zero acceptances in that pair, so
"two requests within the window yield exactly one accepted navigation"
fails on the code. -/
theorem tapDebounce_counterexample :
    ((fun (t1 t2 t3 : TapEvent) =>
        let s1 := navComplete (classifyTap initState t1).1
        let r2 := classifyTap s1 t2
        let r3 := classifyTap r2.1 t3
        t3.time - t2.time < 200 ∧ ¬isCenterTap t2 ∧ ¬isCenterTap t3 ∧
        t2.onLink = false ∧ t2.chatOpen = false ∧ t2.hasSelection = false ∧
        t3.onLink = false ∧ t3.chatOpen = false ∧ t3.hasSelection = false ∧
        (classifyTap initState t1).2 = TapOutcome.accepted NavDirection.next ∧
        r2.2 = TapOutcome.blockedDebounce ∧
        r3.2 = TapOutcome.blockedDebounce)
      { time := 1000, onLink := false, chatOpen := false,
        hasSelection := false, clientX := 800, viewportWidth := 1000 }
      { time := 1100, onLink := false, chatOpen := false,
        hasSelection := false, clientX := 800, viewportWidth := 1000 }
      { time := 1150, onLink := false, chatOpen := false,
        hasSelection := false, clientX := 800, viewportWidth := 1000 }) := by
  decide

theorem relocatedStep_lastRequested (env : BookEnv) (ch : List ChapterRange)
    (s : ReaderState) (e : RelocatedEvent) :
    (relocatedStep env ch s e).lastRequestedLocationIndex =
      s.lastRequestedLocationIndex := by
  by_cases htot : env.locationsTotal = 0
  · rw [relocatedStep_notReady_eq env ch s e htot]
  · rcases hres : resolveIndices env e with u | ⟨stIdx, enIdx⟩
    · cases u
      rw [relocatedStep_err_eq env ch s e htot hres]
    · rw [relocatedStep_ok_eq env ch s e stIdx enIdx htot hres,
        chapterUpdate_lastRequestedLocationIndex,
        submitPageIfValid_lastRequestedLocationIndex,
        updateViewportRefs_lastRequestedLocationIndex,
        syncDisplayed_lastRequestedLocationIndex]

theorem relocatedStep_currentPage (env : BookEnv) (ch : List ChapterRange)
    (s : ReaderState) (e : RelocatedEvent) :
    (relocatedStep env ch s e).currentPage = s.currentPage := by
  by_cases htot : env.locationsTotal = 0
  · rw [relocatedStep_notReady_eq env ch s e htot]
  · rcases hres : resolveIndices env e with u | ⟨stIdx, enIdx⟩
    · cases u
      rw [relocatedStep_err_eq env ch s e htot hres]
    · rw [relocatedStep_ok_eq env ch s e stIdx enIdx htot hres,
        chapterUpdate_currentPage, submitPageIfValid_currentPage,
        updateViewportRefs_currentPage, syncDisplayed_currentPage]

theorem relocatedStep_lastRelocated (env : BookEnv) (ch : List ChapterRange)
    (s : ReaderState) (e : RelocatedEvent) (stIdx enIdx : Option Int)
    (htot : env.locationsTotal ≠ 0)
    (hres : resolveIndices env e = .ok (stIdx, enIdx)) :
    (relocatedStep env ch s e).lastRelocatedStart = stIdx ∧
    (relocatedStep env ch s e).lastRelocatedEnd = enIdx := by
  rw [relocatedStep_ok_eq env ch s e stIdx enIdx htot hres]
  constructor
  · rw [chapterUpdate_lastRelocatedStart, submitPageIfValid_lastRelocatedStart,
      updateViewportRefs_lastRelocatedStart, syncDisplayed_lastRelocatedStart]
  · rw [chapterUpdate_lastRelocatedEnd, submitPageIfValid_lastRelocatedEnd,
      updateViewportRefs_lastRelocatedEnd, syncDisplayed_lastRelocatedEnd]

theorem relocatedStep_stuckFlagged (env : BookEnv) (ch : List ChapterRange)
    (s : ReaderState) (e : RelocatedEvent) (stIdx enIdx : Option Int)
    (htot : env.locationsTotal ≠ 0)
    (hres : resolveIndices env e = .ok (stIdx, enIdx)) :
    (relocatedStep env ch s e).stuckFlagged = stuckCheck s stIdx enIdx := by
  rw [relocatedStep_ok_eq env ch s e stIdx enIdx htot hres,
    chapterUpdate_stuckFlagged, submitPageIfValid_stuckFlagged,
    updateViewportRefs_stuckFlagged, syncDisplayed_stuckFlagged]

theorem relocatedStep_pending_valid (env : BookEnv) (ch : List ChapterRange)
    (s : ReaderState) (e : RelocatedEvent) (stIdx enIdx : Option Int) (st : Int)
    (htot : env.locationsTotal ≠ 0)
    (hres : resolveIndices env e = .ok (stIdx, enIdx))
    (hst : stIdx = some st) (h0 : 0 ≤ st) :
    (relocatedStep env ch s e).pendingPage = some (max 1 (st + 1)) := by
  subst hst
  rw [relocatedStep_ok_eq env ch s e (some st) enIdx htot hres,
    chapterUpdate_pendingPage, submitPageIfValid_valid_pending _ st h0]

theorem submitPageIfValid_neg (s : ReaderState) (st : Int) (h : ¬0 ≤ st) :
    submitPageIfValid s (some st) = s := by
  unfold submitPageIfValid
  simp [h]

theorem relocatedStep_pending_negative (env : BookEnv) (ch : List ChapterRange)
    (s : ReaderState) (e : RelocatedEvent) (stIdx enIdx : Option Int) (st : Int)
    (htot : env.locationsTotal ≠ 0)
    (hres : resolveIndices env e = .ok (stIdx, enIdx))
    (hst : stIdx = some st) (h0 : ¬0 ≤ st) :
    (relocatedStep env ch s e).pendingPage = s.pendingPage := by
  subst hst
  rw [relocatedStep_ok_eq env ch s e (some st) enIdx htot hres,
    chapterUpdate_pendingPage, submitPageIfValid_neg _ st h0,
    updateViewportRefs_pendingPage, syncDisplayed_pendingPage]

theorem rafFlush_currentPage_of_none (s : ReaderState) (h : s.pendingPage = none) :
    (rafFlush s).currentPage = s.currentPage := by
  unfold rafFlush
  rw [h]

theorem stuckCheck_iff (s : ReaderState) (st en : Int) :
    stuckCheck s (some st) (some en) = true ↔
      (s.lastRelocatedStart = some st ∧ s.lastRelocatedEnd = some en ∧
        ∃ r, s.lastRequestedLocationIndex = some r ∧ en < r) := by
  unfold stuckCheck
  rcases h1 : s.lastRelocatedStart with _ | ps <;>
    rcases h2 : s.lastRelocatedEnd with _ | pe <;>
      rcases h3 : s.lastRequestedLocationIndex with _ | req <;>
        simp [Bool.and_eq_true, beq_iff_eq, decide_eq_true_eq]
  tauto

/-- C1: over two consecutive relocation events processed while the
location table is ready, the stuck flag is set on the second event
exactly when it resolves to the same viewport range as the first event
while the last explicitly requested location index is non-null and
strictly greater than that range's end; and under the stuck condition
the page value settled after the second event equals the one settled
after the first — `currentPage` does not advance. -/
theorem stuckDetectionIff :
    ∀ (env : BookEnv) (ch : List ChapterRange) (s0 : ReaderState)
      (e1 e2 : RelocatedEvent) (ps pe : Option Int) (st en : Int),
      env.locationsTotal ≠ 0 →
      resolveIndices env e1 = .ok (ps, pe) →
      resolveIndices env e2 = .ok (some st, some en) →
      ((relocatedStep env ch (relocatedStep env ch s0 e1) e2).stuckFlagged = true ↔
        (ps = some st ∧ pe = some en ∧
          ∃ r, s0.lastRequestedLocationIndex = some r ∧ en < r)) ∧
      ((relocatedStep env ch (relocatedStep env ch s0 e1) e2).stuckFlagged = true →
        (rafFlush
            (relocatedStep env ch (relocatedStep env ch s0 e1) e2)).currentPage =
          (rafFlush (relocatedStep env ch s0 e1)).currentPage) := by
  intro env ch s0 e1 e2 ps pe st en htot hres1 hres2
  have hLR := relocatedStep_lastRelocated env ch s0 e1 ps pe htot hres1
  have hREQ := relocatedStep_lastRequested env ch s0 e1
  have hSF := relocatedStep_stuckFlagged env ch (relocatedStep env ch s0 e1) e2
    (some st) (some en) htot hres2
  have hiff :
      (relocatedStep env ch (relocatedStep env ch s0 e1) e2).stuckFlagged = true ↔
        (ps = some st ∧ pe = some en ∧
          ∃ r, s0.lastRequestedLocationIndex = some r ∧ en < r) := by
    rw [hSF, stuckCheck_iff, hLR.1, hLR.2, hREQ]
  refine ⟨hiff, ?_⟩
  intro hstuck
  obtain ⟨hps, hpe, r, hr, hlt⟩ := hiff.mp hstuck
  by_cases h0 : 0 ≤ st
  · have h2p := relocatedStep_pending_valid env ch (relocatedStep env ch s0 e1) e2
      (some st) (some en) st htot hres2 rfl h0
    have h1p := relocatedStep_pending_valid env ch s0 e1 ps pe st htot hres1 hps h0
    rw [rafFlush_currentPage_of_pending _ _ h2p,
      rafFlush_currentPage_of_pending _ _ h1p]
  · have h2p := relocatedStep_pending_negative env ch (relocatedStep env ch s0 e1)
      e2 (some st) (some en) st htot hres2 rfl h0
    rcases hp : (relocatedStep env ch s0 e1).pendingPage with _ | p
    · rw [rafFlush_currentPage_of_none _ (h2p.trans hp),
        rafFlush_currentPage_of_none _ hp]
      exact relocatedStep_currentPage env ch (relocatedStep env ch s0 e1) e2
    · rw [rafFlush_currentPage_of_pending _ p (h2p.trans hp),
        rafFlush_currentPage_of_pending _ p hp]

/-- Witness for C1, on the spec's stuck scenario: requested index 60,
two consecutive relocations both resolving to the range 55–58 — the
second event sets the stuck flag and the settled page stays put. -/
theorem stuckDetectionIff_witness :
    (relocatedStep
        { locationsTotal := 100, locationFromCfi := fun _ => .ok none,
          measuredWidth := none }
        []
        (relocatedStep
          { locationsTotal := 100, locationFromCfi := fun _ => .ok none,
            measuredWidth := none }
          [] { initState with lastRequestedLocationIndex := some 60 }
          { startCfi := "a", endCfi := none, startLocation := some 55,
            endLocation := some 58, displayed := none })
        { startCfi := "b", endCfi := none, startLocation := some 55,
          endLocation := some 58, displayed := none }).stuckFlagged = true ∧
    (rafFlush
        (relocatedStep
          { locationsTotal := 100, locationFromCfi := fun _ => .ok none,
            measuredWidth := none }
          []
          (relocatedStep
            { locationsTotal := 100, locationFromCfi := fun _ => .ok none,
              measuredWidth := none }
            [] { initState with lastRequestedLocationIndex := some 60 }
            { startCfi := "a", endCfi := none, startLocation := some 55,
              endLocation := some 58, displayed := none })
          { startCfi := "b", endCfi := none, startLocation := some 55,
            endLocation := some 58, displayed := none })).currentPage =
      (rafFlush
        (relocatedStep
          { locationsTotal := 100, locationFromCfi := fun _ => .ok none,
            measuredWidth := none }
          [] { initState with lastRequestedLocationIndex := some 60 }
          { startCfi := "a", endCfi := none, startLocation := some 55,
            endLocation := some 58, displayed := none })).currentPage := by
  have h := stuckDetectionIff
    { locationsTotal := 100, locationFromCfi := fun _ => .ok none,
      measuredWidth := none }
    [] { initState with lastRequestedLocationIndex := some 60 }
    { startCfi := "a", endCfi := none, startLocation := some 55,
      endLocation := some 58, displayed := none }
    { startCfi := "b", endCfi := none, startLocation := some 55,
      endLocation := some 58, displayed := none }
    (some 55) (some 58) 55 58 (by decide) (by rfl) (by rfl)
  have hflag := h.1.mpr ⟨rfl, rfl, 60, rfl, by decide⟩
  exact ⟨hflag, h.2 hflag⟩

theorem updateViewportRefs_none_none (s : ReaderState) :
    updateViewportRefs s none none = s := rfl

/-- C2 (amended): resolution prefers the renderer-supplied indices,
then the CFI-derived ones; a still-missing end index is set to the
event's resolved start index — not to the prior viewport range's end —
and a still-missing start index stays unresolved, in which case the
viewport refs simply retain their prior values. -/
theorem relocationResolutionOrder :
    ∀ (env : BookEnv) (e : RelocatedEvent) (stIdx enIdx : Option Int),
      resolveIndices env e = .ok (stIdx, enIdx) →
      (∀ a, e.startLocation = some a → stIdx = some a) ∧
      (∀ b, e.endLocation = some b → enIdx = some b) ∧
      (∀ a, e.startLocation = none → e.startCfi ≠ "" →
        env.locationFromCfi e.startCfi = .ok (some a) → stIdx = some a) ∧
      (∀ b c, e.endLocation = none → e.endCfi = some c → c ≠ "" →
        env.locationFromCfi c = .ok (some b) → enIdx = some b) ∧
      (e.endLocation = none →
        (e.endCfi = none ∨
          ∃ c, e.endCfi = some c ∧ (c = "" ∨ env.locationFromCfi c = .ok none)) →
        enIdx = stIdx) ∧
      (e.startLocation = none → e.startCfi ≠ "" →
        env.locationFromCfi e.startCfi = .ok none → stIdx = none) ∧
      (∀ (ch : List ChapterRange) (s : ReaderState),
        env.locationsTotal ≠ 0 →
        (relocatedStep env ch s e).lastRelocatedStart = stIdx ∧
        (relocatedStep env ch s e).lastRelocatedEnd = enIdx) ∧
      (∀ (ch : List ChapterRange) (s : ReaderState),
        stIdx = none → enIdx = none →
        (relocatedStep env ch s e).currentStartLocation =
          s.currentStartLocation ∧
        (relocatedStep env ch s e).currentEndLocation = s.currentEndLocation) := by
  intro env e stIdx enIdx hres
  have hresOk := hres
  unfold resolveIndices at hres
  rcases hs : (if e.startCfi = "" then (.ok none : Except Unit (Option Int))
      else env.locationFromCfi e.startCfi) with u | dS
  · rw [hs] at hres
    simp at hres
  · rw [hs] at hres
    rcases he : (match e.endCfi with
        | none => (.ok none : Except Unit (Option Int))
        | some c => if c = "" then .ok none else env.locationFromCfi c)
        with u | dE
    · rw [he] at hres
      simp at hres
    · rw [he] at hres
      simp only [Except.ok.injEq, Prod.mk.injEq] at hres
      obtain ⟨hst, hen⟩ := hres
      refine ⟨?_, ?_, ?_, ?_, ?_, ?_, ?_, ?_⟩
      · intro a ha
        rw [← hst, ha]
      · intro b hb
        rw [← hen, hb]
      · intro a ha hne hcfi
        rw [if_neg hne] at hs
        rw [hs] at hcfi
        cases hcfi
        rw [← hst, ha]
      · intro b c hb hc hcne hcfi
        have he2 : (if c = "" then (.ok none : Except Unit (Option Int))
            else env.locationFromCfi c) = .ok dE := by
          rw [hc] at he
          exact he
        rw [if_neg hcne] at he2
        rw [he2] at hcfi
        cases hcfi
        rw [← hen, hb]
      · intro hb hcases
        have hdE : dE = none := by
          rcases hcases with hnone | ⟨c, hc, hcc⟩
          · rw [hnone] at he
            cases he
            rfl
          · have he2 : (if c = "" then (.ok none : Except Unit (Option Int))
                else env.locationFromCfi c) = .ok dE := by
              rw [hc] at he
              exact he
            rcases hcc with hce | hcr
            · rw [if_pos hce] at he2
              cases he2
              rfl
            · by_cases hce : c = ""
              · rw [if_pos hce] at he2
                cases he2
                rfl
              · rw [if_neg hce] at he2
                rw [he2] at hcr
                cases hcr
                rfl
        rw [← hen, ← hst, hb, hdE]
      · intro ha hne hcfi
        rw [if_neg hne] at hs
        rw [hs] at hcfi
        cases hcfi
        rw [← hst, ha]
      · intro ch s htot
        exact relocatedStep_lastRelocated env ch s e stIdx enIdx htot hresOk
      · intro ch s hstn henn
        by_cases htot : env.locationsTotal = 0
        · rw [relocatedStep_notReady_eq env ch s e htot]
          exact ⟨rfl, rfl⟩
        · rw [relocatedStep_ok_eq env ch s e stIdx enIdx htot hresOk]
          subst hstn
          subst henn
          constructor
          · rw [chapterUpdate_currentStartLocation,
              submitPageIfValid_currentStartLocation, updateViewportRefs_none_none,
              syncDisplayed_currentStartLocation]
          · rw [chapterUpdate_currentEndLocation,
              submitPageIfValid_currentEndLocation, updateViewportRefs_none_none,
              syncDisplayed_currentEndLocation]

/-- Witness for C2 (amended): a renderer-supplied start of 20 with an
unresolvable end yields end := start = 20. -/
theorem relocationResolutionOrder_witness :
    ∃ stIdx enIdx : Option Int,
      resolveIndices
          { locationsTotal := 100, locationFromCfi := fun _ => .ok none,
            measuredWidth := none }
          { startCfi := "x", endCfi := none, startLocation := some 20,
            endLocation := none, displayed := none } = .ok (stIdx, enIdx) ∧
      stIdx = some 20 ∧ enIdx = stIdx := by
  refine ⟨some 20, some 20, rfl, ?_, ?_⟩
  · exact (relocationResolutionOrder
      { locationsTotal := 100, locationFromCfi := fun _ => .ok none,
        measuredWidth := none }
      { startCfi := "x", endCfi := none, startLocation := some 20,
        endLocation := none, displayed := none }
      (some 20) (some 20) rfl).1 20 rfl
  · exact (relocationResolutionOrder
      { locationsTotal := 100, locationFromCfi := fun _ => .ok none,
        measuredWidth := none }
      { startCfi := "x", endCfi := none, startLocation := some 20,
        endLocation := none, displayed := none }
      (some 20) (some 20) rfl).2.2.2.2.1 rfl (Or.inl rfl)

/-- C2 counterexample: prior viewport range ends at 12; an event
supplies start index 20 and no resolvable end.  The code resolves the
end to 20 (the event's start), while the claim's rule — reuse the prior
Viewport Range's end — predicts 12; the relocated handler records 20. -/
theorem relocationResolution_counterexample :
    resolveIndices
        { locationsTotal := 100, locationFromCfi := fun _ => .ok none,
          measuredWidth := none }
        { startCfi := "x", endCfi := none, startLocation := some 20,
          endLocation := none, displayed := none } =
      .ok (some 20, some 20) ∧
    specResolveIndices (some 12)
        { locationsTotal := 100, locationFromCfi := fun _ => .ok none,
          measuredWidth := none }
        { startCfi := "x", endCfi := none, startLocation := some 20,
          endLocation := none, displayed := none } =
      .ok (some 20, some 12) ∧
    (relocatedStep
        { locationsTotal := 100, locationFromCfi := fun _ => .ok none,
          measuredWidth := none }
        []
        { initState with lastRelocatedEnd := some 12,
                         currentEndLocation := some 12 }
        { startCfi := "x", endCfi := none, startLocation := some 20,
          endLocation := none, displayed := none }).lastRelocatedEnd =
      some 20 ∧
    ((some 20 : Option Int) ≠ some 12) := by
  refine ⟨rfl, rfl, by rfl, by decide⟩

theorem chapterEndLoc_none (env : ChapterBuildEnv) (startLoc : Int) :
    chapterEndLoc env startLoc none = .ok ((env.total : Int) - 1) := rfl

theorem chapterEndLoc_some_resolved (env : ChapterBuildEnv) (startLoc : Int)
    (nxt : TocItem) (ncfi : String) (nl : Int)
    (hnsp : env.spineGet nxt.href = some ncfi)
    (hncfi : env.locationFromCfi ncfi = .ok (some nl)) :
    chapterEndLoc env startLoc (some nxt) =
      if startLoc < nl then .ok (nl - 1) else .ok ((env.total : Int) - 1) := by
  rw [chapterEndLoc]
  simp only [hnsp, hncfi]

theorem buildChapterLocs_cons_ok (env : ChapterBuildEnv) (item : TocItem)
    (rest : List TocItem) (cfi : String) (sOpt : Option Int) (endLoc : Int)
    (tailRanges : List ChapterRange)
    (hsp : env.spineGet item.href = some cfi)
    (hcfi : env.locationFromCfi cfi = .ok sOpt)
    (hend : chapterEndLoc env (sOpt.getD 0) rest.head? = .ok endLoc)
    (htail : buildChapterLocs env rest = .ok tailRanges) :
    buildChapterLocs env (item :: rest) =
      .ok ({ href := item.href, label := item.label,
             startLocationIndex := sOpt.getD 0,
             endLocationIndex := endLoc } :: tailRanges) := by
  rw [buildChapterLocs]
  simp only [hsp, hcfi, hend, htail]

/-- C3 (amended): for a flattened-TOC entry with a spine item and a
resolvable CFI, the built range's endIndex is startIndex(next) − 1 when
the next entry resolves strictly greater than this entry's start,
totalLocations − 1 for the last entry, and — when the next entry
resolves to an index not strictly greater — it falls back to
totalLocations − 1 (the end-of-book default), raising no error.  The
range does not degrade to a same-boundary (startIndex = endIndex)
range. -/
theorem chapterRangeEndIndexConstruction :
    ∀ (env : ChapterBuildEnv) (item : TocItem) (cfi : String)
      (sOpt : Option Int),
      env.spineGet item.href = some cfi →
      env.locationFromCfi cfi = .ok sOpt →
      (buildChapterLocs env [item] =
        .ok [{ href := item.href, label := item.label,
               startLocationIndex := sOpt.getD 0,
               endLocationIndex := (env.total : Int) - 1 }]) ∧
      (∀ (nxt : TocItem) (rest : List TocItem) (ncfi : String) (nl : Int)
          (tailRanges : List ChapterRange),
        env.spineGet nxt.href = some ncfi →
        env.locationFromCfi ncfi = .ok (some nl) →
        buildChapterLocs env (nxt :: rest) = .ok tailRanges →
        (sOpt.getD 0 < nl →
          buildChapterLocs env (item :: nxt :: rest) =
            .ok ({ href := item.href, label := item.label,
                   startLocationIndex := sOpt.getD 0,
                   endLocationIndex := nl - 1 } :: tailRanges)) ∧
        (¬sOpt.getD 0 < nl →
          buildChapterLocs env (item :: nxt :: rest) =
            .ok ({ href := item.href, label := item.label,
                   startLocationIndex := sOpt.getD 0,
                   endLocationIndex := (env.total : Int) - 1 } ::
              tailRanges))) := by
  intro env item cfi sOpt hsp hcfi
  constructor
  · exact buildChapterLocs_cons_ok env item [] cfi sOpt ((env.total : Int) - 1)
      [] hsp hcfi (chapterEndLoc_none env (sOpt.getD 0)) rfl
  · intro nxt rest ncfi nl tailRanges hnsp hncfi htail
    have hend := chapterEndLoc_some_resolved env (sOpt.getD 0) nxt ncfi nl
      hnsp hncfi
    constructor
    · intro hlt
      rw [if_pos hlt] at hend
      exact buildChapterLocs_cons_ok env item (nxt :: rest) cfi sOpt (nl - 1)
        tailRanges hsp hcfi hend htail
    · intro hge
      rw [if_neg hge] at hend
      exact buildChapterLocs_cons_ok env item (nxt :: rest) cfi sOpt
        ((env.total : Int) - 1) tailRanges hsp hcfi hend htail

/-- Witness for C3 (amended): entries at 10 and 40 out of 100 locations
give ranges 10–39 and 40–99. -/
theorem chapterRangeEndIndexConstruction_witness :
    buildChapterLocs
        { total := 100,
          spineGet := fun h => some h,
          locationFromCfi := fun c => if c = "a" then .ok (some 10)
            else .ok (some 40) }
        [TocItem.mk "a" "A" [], TocItem.mk "b" "B" []] =
      .ok [{ href := "a", label := "A", startLocationIndex := 10,
             endLocationIndex := 39 },
           { href := "b", label := "B", startLocationIndex := 40,
             endLocationIndex := 99 }] := by
  have htail :
      buildChapterLocs
        { total := 100,
          spineGet := fun h => some h,
          locationFromCfi := fun c => if c = "a" then .ok (some 10)
            else .ok (some 40) }
        [TocItem.mk "b" "B" []] =
      .ok [{ href := "b", label := "B", startLocationIndex := 40,
             endLocationIndex := 99 }] :=
    (chapterRangeEndIndexConstruction
      { total := 100,
        spineGet := fun h => some h,
        locationFromCfi := fun c => if c = "a" then .ok (some 10)
          else .ok (some 40) }
      (TocItem.mk "b" "B" []) "b" (some 40) rfl rfl).1
  exact ((chapterRangeEndIndexConstruction
    { total := 100,
      spineGet := fun h => some h,
      locationFromCfi := fun c => if c = "a" then .ok (some 10)
        else .ok (some 40) }
    (TocItem.mk "a" "A" []) "a" (some 10) rfl rfl).2
    (TocItem.mk "b" "B" []) [] "b" 40
    [{ href := "b", label := "B", startLocationIndex := 40,
       endLocationIndex := 99 }] rfl rfl htail).1 (by decide)

/-- C3 counterexample: two entries both resolving to index 50 out of
100 locations.  The claim's defensive clamp predicts the first range
degrades to the same boundary {50, 50}; the code instead leaves its
endIndex at totalLocations − 1 = 99. -/
theorem chapterRange_counterexample :
    buildChapterLocs
        { total := 100, spineGet := fun h => some h,
          locationFromCfi := fun _ => .ok (some 50) }
        [TocItem.mk "a" "A" [], TocItem.mk "b" "B" []] =
      .ok [{ href := "a", label := "A", startLocationIndex := 50,
             endLocationIndex := 99 },
           { href := "b", label := "B", startLocationIndex := 50,
             endLocationIndex := 99 }] ∧
    ((99 : Int) ≠ 50) := by
  exact ⟨rfl, by decide⟩

/-- C8 (amended): the try/catch sits outside the whole chapter build
loop, so a resolution error anywhere aborts the ENTIRE build: the
caught error leaves the published table at its previous value
(initially empty) and no entry's range — including entries after the
failing one — is published.  Separately, an entry whose href has no
spine item is skipped silently, without an error, while the other
entries are still built. -/
theorem chapterBuildErrorAbortsWholeBuild :
    (∀ (env : ChapterBuildEnv) (items : List TocItem)
        (prev : List ChapterRange),
      buildChapterLocs env items = .error () →
      publishChapters prev (buildChapterLocs env items) = prev) ∧
    (∀ (env : ChapterBuildEnv) (item : TocItem) (rest : List TocItem)
        (cfi : String),
      env.spineGet item.href = some cfi →
      env.locationFromCfi cfi = .error () →
      buildChapterLocs env (item :: rest) = .error ()) ∧
    (∀ (env : ChapterBuildEnv) (item : TocItem) (rest : List TocItem),
      env.spineGet item.href = none →
      buildChapterLocs env (item :: rest) = buildChapterLocs env rest) := by
  refine ⟨?_, ?_, ?_⟩
  · intro env items prev h
    rw [h]
    rfl
  · intro env item rest cfi hsp hcfi
    rw [buildChapterLocs]
    simp only [hsp, hcfi]
  · intro env item rest hsp
    rw [buildChapterLocs]
    simp only [hsp]

/-- Witness for C8 (amended): a build whose first entry's CFI throws
returns the error, and publishing it over a previous empty table keeps
the table empty. -/
theorem chapterBuildErrorAbortsWholeBuild_witness :
    buildChapterLocs
        { total := 100, spineGet := fun h => some h,
          locationFromCfi := fun c =>
            if c = "a" then .error () else .ok (some 50) }
        [TocItem.mk "a" "A" [], TocItem.mk "b" "B" []] = .error () ∧
    publishChapters []
        (buildChapterLocs
          { total := 100, spineGet := fun h => some h,
            locationFromCfi := fun c =>
              if c = "a" then .error () else .ok (some 50) }
          [TocItem.mk "a" "A" [], TocItem.mk "b" "B" []]) = [] := by
  have herr :
      buildChapterLocs
        { total := 100, spineGet := fun h => some h,
          locationFromCfi := fun c =>
            if c = "a" then .error () else .ok (some 50) }
        [TocItem.mk "a" "A" [], TocItem.mk "b" "B" []] = .error () :=
    chapterBuildErrorAbortsWholeBuild.2.1
      { total := 100, spineGet := fun h => some h,
        locationFromCfi := fun c =>
          if c = "a" then .error () else .ok (some 50) }
      (TocItem.mk "a" "A" []) [TocItem.mk "b" "B" []] "a" rfl rfl
  exact ⟨herr, chapterBuildErrorAbortsWholeBuild.1
    { total := 100, spineGet := fun h => some h,
      locationFromCfi := fun c =>
        if c = "a" then .error () else .ok (some 50) }
    [TocItem.mk "a" "A" [], TocItem.mk "b" "B" []] [] herr⟩

/-- C8 counterexample: with two TOC entries where only the first
entry's CFI resolution throws, the claim's per-entry semantics (the
spec-modelled `specPerEntryBuild`) still builds the second entry's
range, but the code's build returns the error and the published table
stays empty — the second entry's range is NOT available. -/
theorem chapterBuildPerEntry_counterexample :
    buildChapterLocs
        { total := 100, spineGet := fun h => some h,
          locationFromCfi := fun c =>
            if c = "a" then .error () else .ok (some 50) }
        [TocItem.mk "a" "A" [], TocItem.mk "b" "B" []] = .error () ∧
    specPerEntryBuild
        { total := 100, spineGet := fun h => some h,
          locationFromCfi := fun c =>
            if c = "a" then .error () else .ok (some 50) }
        [TocItem.mk "a" "A" [], TocItem.mk "b" "B" []] =
      [{ href := "b", label := "B", startLocationIndex := 50,
         endLocationIndex := 99 }] ∧
    publishChapters []
        (buildChapterLocs
          { total := 100, spineGet := fun h => some h,
            locationFromCfi := fun c =>
              if c = "a" then .error () else .ok (some 50) }
          [TocItem.mk "a" "A" [], TocItem.mk "b" "B" []]) = [] ∧
    (([] : List ChapterRange) ≠
      [{ href := "b", label := "B", startLocationIndex := 50,
         endLocationIndex := 99 }]) := by
  exact ⟨rfl, rfl, rfl, by decide⟩

/-- C9 (amended): an exception thrown while processing a relocation
event is caught inside the handler, logged, and never propagates — the
handler always returns a state.  But processing is not atomic: writes
made before the throw survive it.  When index resolution throws, the
returned state has `currentLocation` already set to the event's
fragment, while every other tracked field retains its pre-event
value. -/
theorem relocationExceptionContainment :
    ∀ (env : BookEnv) (ch : List ChapterRange) (s : ReaderState)
      (e : RelocatedEvent),
      env.locationsTotal ≠ 0 →
      resolveIndices env e = .error () →
      relocatedStep env ch s e =
        { s with stuckFlagged := false, currentLocation := e.startCfi } := by
  intro env ch s e htot hres
  exact relocatedStep_err_eq env ch s e htot hres

/-- Witness for C9 (amended): a concrete throwing resolution returns
the partially updated state. -/
theorem relocationExceptionContainment_witness :
    relocatedStep
        { locationsTotal := 50, locationFromCfi := fun _ => .error (),
          measuredWidth := none }
        [] { initState with currentLocation := "old" }
        { startCfi := "bad", endCfi := none, startLocation := some 20,
          endLocation := some 21, displayed := none } =
      { initState with currentLocation := "bad" } := by
  exact relocationExceptionContainment
    { locationsTotal := 50, locationFromCfi := fun _ => .error (),
      measuredWidth := none }
    [] { initState with currentLocation := "old" }
    { startCfi := "bad", endCfi := none, startLocation := some 20,
      endLocation := some 21, displayed := none }
    (by decide) rfl

/-- C9 counterexample: when resolution throws, the handler has already
written `currentLocation` (the canonical resume point) before the throw
point — the claim that ALL tracker state retains its pre-event values
is false, even though the exception is contained and the viewport refs
do retain theirs. -/
theorem relocationAtomicity_counterexample :
    (relocatedStep
        { locationsTotal := 50, locationFromCfi := fun _ => .error (),
          measuredWidth := none }
        []
        { initState with currentLocation := "old",
                         currentStartLocation := some 7 }
        { startCfi := "bad", endCfi := none, startLocation := some 20,
          endLocation := some 21, displayed := none }).currentLocation =
      "bad" ∧
    ("bad" ≠ "old") ∧
    (relocatedStep
        { locationsTotal := 50, locationFromCfi := fun _ => .error (),
          measuredWidth := none }
        []
        { initState with currentLocation := "old",
                         currentStartLocation := some 7 }
        { startCfi := "bad", endCfi := none, startLocation := some 20,
          endLocation := some 21, displayed := none }).currentStartLocation =
      some 7 := by
  exact ⟨rfl, by decide, rfl⟩
